import Mathlib

/-!
Verification of the factory-vm job store and workers.

The development shallowly embeds the row-level semantics of
`src/services/common/db.py`, the worker cycles that mutate job rows
(`src/services/workers/{orchestrator,qa,uploader,cleanup}.py`), the HTTP
approval surface (`src/services/factory_api/app.py`), the output-growth
watchdog (`src/render_worker/main.py`) and the filename slug normalizer
(`src/services/common/utils.py`).

Conventions of the embedding:
- a SQLite `jobs` row is the structure `JobRow`; the store is a `List JobRow`;
- timestamps (floats in the source) are modelled as `Int`; all claims only
  compare timestamps, so discrete time is faithful;
- SQL `NULL`able columns are `Option` fields; an `UPDATE ... WHERE` that
  matches no row is the identity on the row;
- strings are Lean `String`s, except in the slug normalizer where a string
  is its list of Unicode code points (`List Nat`), which keeps the
  character arithmetic of the Python code explicit.
-/

namespace FactoryVM

/-- One row of the `jobs` table (schema in `db.py`, `migrate`). -/
structure JobRow where
  id : Nat
  state : String
  stage : String
  priority : Int
  attempt : Nat
  locked_by : Option String
  locked_at : Option Int
  retry_at : Option Int
  progress_pct : Int
  progress_text : Option String
  progress_updated_at : Option Int
  error_reason : Option String
  approval_notified_at : Option Int
  published_at : Option Int
  delete_mp4_at : Option Int
  created_at : Int
  updated_at : Int
deriving Repr, DecidableEq

/-- `db.cancel_job`: unconditional UPDATE, no state guard in its WHERE. -/
def cancel_job (j : JobRow) (reason : String) (ts : Int) : JobRow :=
  { j with
    state := "CANCELLED"
    stage := "CANCELLED"
    progress_text := some "cancelled"
    error_reason := some reason
    retry_at := none
    locked_by := none
    locked_at := none
    updated_at := ts }

/-- `db.release_lock`: clears the lock only when held by this worker. -/
def release_lock (j : JobRow) (worker_id : String) (ts : Int) : JobRow :=
  if j.locked_by = some worker_id then
    { j with locked_by := none, locked_at := none, updated_at := ts }
  else j

/-- `db.force_unlock`: clears the lock regardless of the holder. -/
def force_unlock (j : JobRow) (ts : Int) : JobRow :=
  { j with locked_by := none, locked_at := none, updated_at := ts }

/-- `db.clear_retry`. -/
def clear_retry (j : JobRow) (ts : Int) : JobRow :=
  { j with retry_at := none, updated_at := ts }

/-- `db.increment_attempt` (the Python function also returns the new value,
which is `(increment_attempt j ts).attempt` here). -/
def increment_attempt (j : JobRow) (ts : Int) : JobRow :=
  { j with attempt := j.attempt + 1, updated_at := ts }

/-- `db.schedule_retry`: gated by `state != CANCELLED` in its WHERE clause. -/
def schedule_retry (j : JobRow) (ts : Int) (next_state stage error_reason : String)
    (backoff_sec : Int) : JobRow :=
  if j.state = "CANCELLED" then j
  else
    { j with
      state := next_state
      stage := stage
      error_reason := some error_reason
      retry_at := some (ts + backoff_sec)
      updated_at := ts
      locked_by := none
      locked_at := none }

/-- The keyword arguments of `db.update_job_state`; `none` means the Python
argument was left at its `None` default (field order: state, stage,
error_reason, progress_pct, progress_text, approval_notified_at,
published_at, delete_mp4_at). -/
structure UpdateArgs where
  state : String
  stage : Option String
  error_reason : Option String
  progress_pct : Option Int
  progress_text : Option String
  approval_notified_at : Option Int
  published_at : Option Int
  delete_mp4_at : Option Int
deriving Repr, DecidableEq

/-- `db.update_job_state`: sets `state` and `updated_at`, sets each optional
field only when the argument was given (`progress_pct` also stamps
`progress_updated_at`), and unless the written state is CANCELLED the UPDATE
carries `state != CANCELLED` in its WHERE clause. -/
def update_job_state (j : JobRow) (ts : Int) (a : UpdateArgs) : JobRow :=
  if a.state ≠ "CANCELLED" ∧ j.state = "CANCELLED" then j
  else
    { j with
      state := a.state
      updated_at := ts
      stage := a.stage.getD j.stage
      error_reason := match a.error_reason with
        | some e => some e
        | none => j.error_reason
      progress_pct := a.progress_pct.getD j.progress_pct
      progress_updated_at := match a.progress_pct with
        | some _ => some ts
        | none => j.progress_updated_at
      progress_text := match a.progress_text with
        | some t => some t
        | none => j.progress_text
      approval_notified_at := match a.approval_notified_at with
        | some v => some v
        | none => j.approval_notified_at
      published_at := match a.published_at with
        | some v => some v
        | none => j.published_at
      delete_mp4_at := match a.delete_mp4_at with
        | some v => some v
        | none => j.delete_mp4_at }

end FactoryVM

open FactoryVM

/-- C2: once a job row is CANCELLED, any `update_job_state` whose target
state is not CANCELLED and any `schedule_retry` leave the row unchanged,
for every timestamp and every combination of the other arguments. -/
theorem cancelled_jobs_frozen (j : JobRow) (hj : j.state = "CANCELLED")
    (ts : Int) (a : UpdateArgs) (ha : a.state ≠ "CANCELLED")
    (ts2 : Int) (next_state stage reason : String) (backoff : Int) :
    update_job_state j ts a = j ∧
    schedule_retry j ts2 next_state stage reason backoff = j := by
  constructor
  · simp [update_job_state, hj, ha]
  · simp [schedule_retry, hj]

/-- Witness for C2 at a concrete cancelled row and concrete arguments. -/
theorem cancelled_jobs_frozen_witness :
    update_job_state
      ⟨7, "CANCELLED", "CANCELLED", 0, 2, none, none, none, 0, some "cancelled",
        none, some "stop", none, none, none, 10, 20⟩
      30 ⟨"RENDERING", some "RENDER", none, some 50, none, none, none, none⟩ =
      ⟨7, "CANCELLED", "CANCELLED", 0, 2, none, none, none, 0, some "cancelled",
        none, some "stop", none, none, none, 10, 20⟩ ∧
    schedule_retry
      ⟨7, "CANCELLED", "CANCELLED", 0, 2, none, none, none, 0, some "cancelled",
        none, some "stop", none, none, none, 10, 20⟩
      40 "READY_FOR_RENDER" "FETCH" "retry" 300 =
      ⟨7, "CANCELLED", "CANCELLED", 0, 2, none, none, none, 0, some "cancelled",
        none, some "stop", none, none, none, 10, 20⟩ :=
  cancelled_jobs_frozen _ rfl 30
    ⟨"RENDERING", some "RENDER", none, some 50, none, none, none, none⟩
    (by decide) 40 "READY_FOR_RENDER" "FETCH" "retry" 300

/-- C10: the store-level cancel primitive is unconditional (it applies from
every starting state, terminal states included, since the written state is
CANCELLED and `update_job_state` carries no state guard in that case) and a
second invocation agrees with the first on state, stage, retry_at and both
lock fields. -/
theorem cancel_job_unconditional_idempotent (j : JobRow) (reason : String) (ts : Int)
    (reason2 : String) (ts2 : Int) (a : UpdateArgs) (ha : a.state = "CANCELLED") :
    (cancel_job j reason ts).state = "CANCELLED" ∧
    (cancel_job j reason ts).stage = "CANCELLED" ∧
    (cancel_job j reason ts).retry_at = none ∧
    (cancel_job j reason ts).locked_by = none ∧
    (cancel_job j reason ts).locked_at = none ∧
    (cancel_job (cancel_job j reason ts) reason2 ts2).state = (cancel_job j reason ts).state ∧
    (cancel_job (cancel_job j reason ts) reason2 ts2).stage = (cancel_job j reason ts).stage ∧
    (cancel_job (cancel_job j reason ts) reason2 ts2).retry_at = (cancel_job j reason ts).retry_at ∧
    (cancel_job (cancel_job j reason ts) reason2 ts2).locked_by = (cancel_job j reason ts).locked_by ∧
    (cancel_job (cancel_job j reason ts) reason2 ts2).locked_at = (cancel_job j reason ts).locked_at ∧
    (update_job_state j ts a).state = "CANCELLED" := by
  refine ⟨rfl, rfl, rfl, rfl, rfl, rfl, rfl, rfl, rfl, rfl, ?_⟩
  rw [update_job_state]
  simp [ha]

/-- Witness for C10 at a concrete PUBLISHED row. -/
theorem cancel_job_unconditional_idempotent_witness :
    (cancel_job
      ⟨3, "PUBLISHED", "APPROVAL", 1, 1, some "w9", some 5, some 6, 100, none,
        none, none, none, some 50, some 60, 1, 2⟩ "stop" 70).state = "CANCELLED" ∧
    (cancel_job
      ⟨3, "PUBLISHED", "APPROVAL", 1, 1, some "w9", some 5, some 6, 100, none,
        none, none, none, some 50, some 60, 1, 2⟩ "stop" 70).stage = "CANCELLED" ∧
    (cancel_job
      ⟨3, "PUBLISHED", "APPROVAL", 1, 1, some "w9", some 5, some 6, 100, none,
        none, none, none, some 50, some 60, 1, 2⟩ "stop" 70).retry_at = none ∧
    (cancel_job
      ⟨3, "PUBLISHED", "APPROVAL", 1, 1, some "w9", some 5, some 6, 100, none,
        none, none, none, some 50, some 60, 1, 2⟩ "stop" 70).locked_by = none ∧
    (cancel_job
      ⟨3, "PUBLISHED", "APPROVAL", 1, 1, some "w9", some 5, some 6, 100, none,
        none, none, none, some 50, some 60, 1, 2⟩ "stop" 70).locked_at = none ∧
    (cancel_job (cancel_job
      ⟨3, "PUBLISHED", "APPROVAL", 1, 1, some "w9", some 5, some 6, 100, none,
        none, none, none, some 50, some 60, 1, 2⟩ "stop" 70) "again" 80).state =
      (cancel_job
      ⟨3, "PUBLISHED", "APPROVAL", 1, 1, some "w9", some 5, some 6, 100, none,
        none, none, none, some 50, some 60, 1, 2⟩ "stop" 70).state ∧
    (cancel_job (cancel_job
      ⟨3, "PUBLISHED", "APPROVAL", 1, 1, some "w9", some 5, some 6, 100, none,
        none, none, none, some 50, some 60, 1, 2⟩ "stop" 70) "again" 80).stage =
      (cancel_job
      ⟨3, "PUBLISHED", "APPROVAL", 1, 1, some "w9", some 5, some 6, 100, none,
        none, none, none, some 50, some 60, 1, 2⟩ "stop" 70).stage ∧
    (cancel_job (cancel_job
      ⟨3, "PUBLISHED", "APPROVAL", 1, 1, some "w9", some 5, some 6, 100, none,
        none, none, none, some 50, some 60, 1, 2⟩ "stop" 70) "again" 80).retry_at =
      (cancel_job
      ⟨3, "PUBLISHED", "APPROVAL", 1, 1, some "w9", some 5, some 6, 100, none,
        none, none, none, some 50, some 60, 1, 2⟩ "stop" 70).retry_at ∧
    (cancel_job (cancel_job
      ⟨3, "PUBLISHED", "APPROVAL", 1, 1, some "w9", some 5, some 6, 100, none,
        none, none, none, some 50, some 60, 1, 2⟩ "stop" 70) "again" 80).locked_by =
      (cancel_job
      ⟨3, "PUBLISHED", "APPROVAL", 1, 1, some "w9", some 5, some 6, 100, none,
        none, none, none, some 50, some 60, 1, 2⟩ "stop" 70).locked_by ∧
    (cancel_job (cancel_job
      ⟨3, "PUBLISHED", "APPROVAL", 1, 1, some "w9", some 5, some 6, 100, none,
        none, none, none, some 50, some 60, 1, 2⟩ "stop" 70) "again" 80).locked_at =
      (cancel_job
      ⟨3, "PUBLISHED", "APPROVAL", 1, 1, some "w9", some 5, some 6, 100, none,
        none, none, none, some 50, some 60, 1, 2⟩ "stop" 70).locked_at ∧
    (update_job_state
      ⟨3, "PUBLISHED", "APPROVAL", 1, 1, some "w9", some 5, some 6, 100, none,
        none, none, none, some 50, some 60, 1, 2⟩ 70
      ⟨"CANCELLED", some "CANCELLED", none, none, none, none, none, none⟩).state =
      "CANCELLED" :=
  cancel_job_unconditional_idempotent _ "stop" 70 "again" 80
    ⟨"CANCELLED", some "CANCELLED", none, none, none, none, none, none⟩ rfl

namespace FactoryVM

/-- The `OutputGrowthWatchdog` state from `render_worker/main.py`. -/
structure Watchdog where
  start_ts : Int
  grace_sec : Int
  idle_sec : Int
  min_delta : Int
  last_bytes : Option Int
  last_growth_ts : Int
deriving Repr, DecidableEq

/-- The watchdog constructor: clamps `grace_sec` to at least 0, `idle_sec`
to at least 1, `min_delta_bytes` to at least 1, and starts with
`last_bytes = None` and `last_growth_ts = start_ts`. -/
def watchdogInit (start_ts grace_sec idle_sec min_delta_bytes : Int) : Watchdog :=
  { start_ts := start_ts
    grace_sec := max 0 grace_sec
    idle_sec := max 1 idle_sec
    min_delta := max 1 min_delta_bytes
    last_bytes := none
    last_growth_ts := start_ts }

/-- `OutputGrowthWatchdog.update`: clamps negative totals to 0; the first
call records the bytes and refreshes the growth timestamp only for a
positive total; later calls refresh both fields only on growth of at least
`min_delta` bytes. -/
def Watchdog.update (w : Watchdog) (total_bytes now_ts : Int) : Watchdog :=
  let b := max 0 total_bytes
  match w.last_bytes with
  | none =>
      { w with
        last_bytes := some b
        last_growth_ts := if 0 < b then now_ts else w.last_growth_ts }
  | some lb =>
      if lb + w.min_delta ≤ b then
        { w with last_bytes := some b, last_growth_ts := now_ts }
      else w

/-- `OutputGrowthWatchdog.is_stuck`. -/
def Watchdog.is_stuck (w : Watchdog) (now_ts : Int) : Bool :=
  if now_ts - w.start_ts < w.grace_sec then false
  else w.idle_sec ≤ now_ts - w.last_growth_ts

end FactoryVM

/-- C8 counterexample: with `min_delta_bytes = 0` the claim's update rule
(refresh whenever `total_bytes ≥ last_bytes + min_delta_bytes`) demands that
a second update with unchanged bytes refreshes `last_growth_ts`, but the
constructor clamps `min_delta_bytes` to 1, so the code leaves the growth
timestamp untouched. -/
theorem watchdog_claim_counterexample :
    (5 : Int) ≥ 5 + 0 ∧
    (((watchdogInit 0 0 10 0).update 5 1).update 5 2).last_growth_ts = 1 ∧
    (((watchdogInit 0 0 10 0).update 5 1).update 5 2).last_growth_ts ≠ 2 := by
  decide

/-- C8 (amended): for parameters in the ranges the constructor leaves
unclamped (`grace_sec ≥ 0`, `idle_sec ≥ 1`, `min_delta_bytes ≥ 1`) and
non-negative byte totals: the first update sets `last_bytes` to the total
and refreshes `last_growth_ts` to `now` exactly when the total is positive;
a subsequent update refreshes both fields exactly when the total grew by at
least `min_delta_bytes`; and `is_stuck now` is false whenever
`now − start_ts < grace_sec` and otherwise holds exactly when
`now − last_growth_ts ≥ idle_sec`. -/
theorem watchdog_correct (start grace idle delta : Int)
    (hg : 0 ≤ grace) (hi : 1 ≤ idle) (hd : 1 ≤ delta) :
    ((watchdogInit start grace idle delta).grace_sec = grace ∧
      (watchdogInit start grace idle delta).idle_sec = idle ∧
      (watchdogInit start grace idle delta).min_delta = delta ∧
      (watchdogInit start grace idle delta).last_bytes = none ∧
      (watchdogInit start grace idle delta).last_growth_ts = start) ∧
    (∀ b t, 0 ≤ b →
      ((watchdogInit start grace idle delta).update b t).last_bytes = some b ∧
      ((watchdogInit start grace idle delta).update b t).last_growth_ts =
        (if 0 < b then t else start)) ∧
    (∀ w : Watchdog, w.grace_sec = grace → w.idle_sec = idle → w.min_delta = delta →
      ∀ lb, w.last_bytes = some lb → ∀ b t, 0 ≤ b →
      (lb + delta ≤ b →
        (w.update b t).last_bytes = some b ∧ (w.update b t).last_growth_ts = t) ∧
      (¬ lb + delta ≤ b → w.update b t = w)) ∧
    (∀ w : Watchdog, w.grace_sec = grace → w.idle_sec = idle →
      ∀ now, (now - w.start_ts < grace → w.is_stuck now = false) ∧
        (grace ≤ now - w.start_ts →
          (w.is_stuck now = true ↔ idle ≤ now - w.last_growth_ts))) := by
  refine ⟨⟨max_eq_right hg, max_eq_right hi, max_eq_right hd, rfl, rfl⟩, ?_, ?_, ?_⟩
  · intro b t hb
    have hmax : max 0 b = b := max_eq_right hb
    constructor
    · simp [Watchdog.update, watchdogInit, hmax]
    · simp [Watchdog.update, watchdogInit, hmax]
  · intro w hwg hwi hwd lb hlb b t hb
    have hmax : max 0 b = b := max_eq_right hb
    constructor
    · intro hgrow
      rw [Watchdog.update]
      simp only [hmax, hlb, hwd]
      simp [hgrow]
    · intro hgrow
      rw [Watchdog.update]
      simp only [hmax, hlb, hwd]
      simp [hgrow]
  · intro w hwg hwi now
    constructor
    · intro h
      simp [Watchdog.is_stuck, hwg, h]
    · intro h
      have h2 : ¬ now - w.start_ts < grace := not_lt.mpr h
      simp [Watchdog.is_stuck, hwg, hwi, h2]

/-- Witness for C8 at concrete parameters (grace 2, idle 3, delta 4):
first update with positive bytes, growth update, no-growth update, and both
branches of `is_stuck`. -/
theorem watchdog_correct_witness :
    (watchdogInit 0 2 3 4).min_delta = 4 ∧
    (((watchdogInit 0 2 3 4).update 5 1).last_bytes = some 5 ∧
      ((watchdogInit 0 2 3 4).update 5 1).last_growth_ts = (if (0 : Int) < 5 then 1 else 0)) ∧
    ((((watchdogInit 0 2 3 4).update 5 1).update 9 6).last_bytes = some 9 ∧
      (((watchdogInit 0 2 3 4).update 5 1).update 9 6).last_growth_ts = 6) ∧
    (((watchdogInit 0 2 3 4).update 5 1).update 6 7 = (watchdogInit 0 2 3 4).update 5 1) ∧
    ((watchdogInit 0 2 3 4).update 5 1).is_stuck 1 = false ∧
    (((watchdogInit 0 2 3 4).update 5 1).is_stuck 10 = true ↔
      (3 : Int) ≤ 10 - (((watchdogInit 0 2 3 4).update 5 1).last_growth_ts)) := by
  have h := watchdog_correct 0 2 3 4 (by decide) (by decide) (by decide)
  refine ⟨h.1.2.2.1, h.2.1 5 1 (by decide), ?_, ?_, ?_, ?_⟩
  · exact (h.2.2.1 ((watchdogInit 0 2 3 4).update 5 1) (by decide) (by decide) (by decide)
      5 (by decide) 9 6 (by decide)).1 (by decide)
  · exact (h.2.2.1 ((watchdogInit 0 2 3 4).update 5 1) (by decide) (by decide) (by decide)
      5 (by decide) 6 7 (by decide)).2 (by decide)
  · exact (h.2.2.2 ((watchdogInit 0 2 3 4).update 5 1) (by decide) (by decide) 1).1 (by decide)
  · exact (h.2.2.2 ((watchdogInit 0 2 3 4).update 5 1) (by decide) (by decide) 10).2 (by decide)

namespace FactoryVM

/-- The guard set of `api_cancel` in `factory_api/app.py`: states for which
the endpoint answers 409 (message "job is already terminal"). -/
def cancelGuard (st : String) : Bool :=
  st == "PUBLISHED" || st == "REJECTED" || st == "APPROVED" || st == "CANCELLED"

/-- The terminal states as the specification lists them. -/
def specTerminal (st : String) : Bool :=
  st == "CANCELLED" || st == "REJECTED" || st == "PUBLISHED" || st == "CLEANED"

/-- `POST /v1/jobs/id/cancel` (`api_cancel`): 404 for a missing job, 409
when the current state is in `cancelGuard`, otherwise 200 after
`db.cancel_job`.  The result is the HTTP status and the job row after the
call (the cancellation-marker file write is filesystem-only and
best-effort, so it is not part of the row model). -/
def api_cancel (reason : String) (ts : Int) : Option JobRow → Nat × Option JobRow
  | none => (404, none)
  | some job =>
      if cancelGuard job.state then (409, some job)
      else (200, some (cancel_job job reason ts))

/-- `POST /v1/jobs/id/mark_published` (`api_mark_published`): 404 for a
missing job, 409 unless the state is APPROVED or WAIT_APPROVAL, otherwise
200 after writing PUBLISHED with `published_at = now` and
`delete_mp4_at = now + 48 h`. -/
def api_mark_published (ts : Int) : Option JobRow → Nat × Option JobRow
  | none => (404, none)
  | some job =>
      if job.state = "APPROVED" ∨ job.state = "WAIT_APPROVAL" then
        (200, some (update_job_state job ts
          ⟨"PUBLISHED", some "APPROVAL", none, none, none, none,
            some ts, some (ts + 48 * 3600)⟩))
      else (409, some job)

/-- Per-job on-disk artifacts the cleanup worker may delete. -/
structure JobFiles where
  mp4Exists : Bool
  previewExists : Bool
deriving Repr, DecidableEq

/-- The selection of `cleanup_cycle`: rows in PUBLISHED whose
`delete_mp4_at` is set and has passed. -/
def cleanupDue (ts : Int) (j : JobRow) : Bool :=
  j.state == "PUBLISHED" &&
    (match j.delete_mp4_at with
      | some d => d ≤ ts
      | none => false)

/-- `cleanup_cycle` (`workers/cleanup.py`), restricted to the MP4-retention
sweep: for every due job delete the outbox MP4 and the preview file and
mark the row CLEANED.  (The workspace sweep for non-rendering jobs touches
no job row and no outbox file, so it is outside this model.) -/
def cleanup_cycle (ts : Int) (store : List (JobRow × JobFiles)) :
    List (JobRow × JobFiles) :=
  store.map fun p =>
    if cleanupDue ts p.1 then
      (update_job_state p.1 ts
        ⟨"CLEANED", some "CLEANUP", none, none, some "mp4 deleted", none, none, none⟩,
        ⟨false, false⟩)
    else p

end FactoryVM

/-- C5 counterexample: `api_cancel` answers 409 for a job in APPROVED, a
state outside the terminal set {CANCELLED, REJECTED, PUBLISHED, CLEANED}
named by the claim, and answers 200 for a job in the terminal state
CLEANED (re-cancelling it) — so 409 is not returned exactly on the
terminal states. -/
theorem api_cancel_guard_counterexample :
    (api_cancel "stop" 100 (some
      ⟨1, "APPROVED", "APPROVAL", 0, 0, none, none, none, 0, none, none, none,
        none, none, none, 1, 2⟩)).1 = 409 ∧
    specTerminal "APPROVED" = false ∧
    (api_cancel "stop" 100 (some
      ⟨2, "CLEANED", "CLEANUP", 0, 0, none, none, none, 0, none, none, none,
        none, none, none, 1, 2⟩)).1 = 200 ∧
    specTerminal "CLEANED" = true := by
  decide

/-- C5 (amended): for an existing job, `api_cancel` returns 409 exactly
when the state is in the code's guard set {PUBLISHED, REJECTED, APPROVED,
CANCELLED} (leaving the row unchanged), and for every other state —
CLEANED included — returns 200 and leaves the row CANCELLED with lock
holder, lock time and retry_at null. -/
theorem api_cancel_guard_correct (job : JobRow) (reason : String) (ts : Int) :
    ((api_cancel reason ts (some job)).1 = 409 ↔ cancelGuard job.state = true) ∧
    (cancelGuard job.state = true → (api_cancel reason ts (some job)).2 = some job) ∧
    (cancelGuard job.state = false →
      (api_cancel reason ts (some job)).1 = 200 ∧
      (api_cancel reason ts (some job)).2 = some (cancel_job job reason ts) ∧
      (cancel_job job reason ts).state = "CANCELLED" ∧
      (cancel_job job reason ts).locked_by = none ∧
      (cancel_job job reason ts).locked_at = none ∧
      (cancel_job job reason ts).retry_at = none) := by
  by_cases h : cancelGuard job.state
  · refine ⟨?_, ?_, ?_⟩
    · simp [api_cancel, h]
    · intro _; simp [api_cancel, h]
    · intro h2; rw [h] at h2; cases h2
  · have hb : cancelGuard job.state = false := by
      simpa using h
    refine ⟨?_, ?_, ?_⟩
    · simp [api_cancel, hb]
    · intro h2; rw [hb] at h2; cases h2
    · intro _
      simp [api_cancel, hb, cancel_job]

/-- Witness for C5 at a concrete READY_FOR_RENDER job (guard false branch)
and a concrete CANCELLED job (guard true branch). -/
theorem api_cancel_guard_correct_witness :
    ((api_cancel "stop" 9 (some
      ⟨4, "READY_FOR_RENDER", "FETCH", 0, 0, none, none, some 3, 0, none, none,
        none, none, none, none, 1, 2⟩)).1 = 200 ∧
      (api_cancel "stop" 9 (some
      ⟨4, "READY_FOR_RENDER", "FETCH", 0, 0, none, none, some 3, 0, none, none,
        none, none, none, none, 1, 2⟩)).2 = some (cancel_job
      ⟨4, "READY_FOR_RENDER", "FETCH", 0, 0, none, none, some 3, 0, none, none,
        none, none, none, none, 1, 2⟩ "stop" 9) ∧
      (cancel_job
      ⟨4, "READY_FOR_RENDER", "FETCH", 0, 0, none, none, some 3, 0, none, none,
        none, none, none, none, 1, 2⟩ "stop" 9).state = "CANCELLED" ∧
      (cancel_job
      ⟨4, "READY_FOR_RENDER", "FETCH", 0, 0, none, none, some 3, 0, none, none,
        none, none, none, none, 1, 2⟩ "stop" 9).locked_by = none ∧
      (cancel_job
      ⟨4, "READY_FOR_RENDER", "FETCH", 0, 0, none, none, some 3, 0, none, none,
        none, none, none, none, 1, 2⟩ "stop" 9).locked_at = none ∧
      (cancel_job
      ⟨4, "READY_FOR_RENDER", "FETCH", 0, 0, none, none, some 3, 0, none, none,
        none, none, none, none, 1, 2⟩ "stop" 9).retry_at = none) ∧
    (api_cancel "stop" 9 (some
      ⟨5, "CANCELLED", "CANCELLED", 0, 0, none, none, none, 0, none, none,
        none, none, none, none, 1, 2⟩)).2 = some
      ⟨5, "CANCELLED", "CANCELLED", 0, 0, none, none, none, 0, none, none,
        none, none, none, none, 1, 2⟩ :=
  ⟨(api_cancel_guard_correct
      ⟨4, "READY_FOR_RENDER", "FETCH", 0, 0, none, none, some 3, 0, none, none,
        none, none, none, none, 1, 2⟩ "stop" 9).2.2 (by decide),
    (api_cancel_guard_correct
      ⟨5, "CANCELLED", "CANCELLED", 0, 0, none, none, none, 0, none, none,
        none, none, none, none, 1, 2⟩ "stop" 9).2.1 (by decide)⟩

/-- A sample job row in APPROVED, used by the C7 witness. -/
def jApproved : JobRow :=
  ⟨1, "APPROVED", "APPROVAL", 0, 0, none, none, none, 100, none, none, none,
    none, none, none, 1, 2⟩

/-- A sample two-row store for the C7 witness: row 0 is PUBLISHED and due
for deletion at t = 173800, row 1 is still WAIT_APPROVAL. -/
def pubStore : List (JobRow × JobFiles) :=
  [(⟨1, "PUBLISHED", "APPROVAL", 0, 0, none, none, none, 100, none, none, none,
      none, some 1000, some 173800, 1, 2⟩, ⟨true, true⟩),
    (⟨2, "WAIT_APPROVAL", "APPROVAL", 0, 0, none, none, none, 100, none, none,
      none, none, none, none, 1, 2⟩, ⟨true, true⟩)]

/-- C7: `api_mark_published` answers 200 exactly when the job's state is
APPROVED or WAIT_APPROVAL (otherwise 409 with the row unchanged), and on
success the row is PUBLISHED with `published_at = now` and
`delete_mp4_at = published_at + 48 h`; afterwards `cleanup_cycle` at any
time turns every PUBLISHED row whose deletion time has passed into CLEANED
and removes its MP4 and preview files, leaving every other row and its
files untouched. -/
theorem mark_published_retention_correct (job : JobRow) (ts : Int) :
    ((api_mark_published ts (some job)).1 = 200 ↔
      (job.state = "APPROVED" ∨ job.state = "WAIT_APPROVAL")) ∧
    (¬ (job.state = "APPROVED" ∨ job.state = "WAIT_APPROVAL") →
      api_mark_published ts (some job) = (409, some job)) ∧
    (∀ job2, job.state = "APPROVED" ∨ job.state = "WAIT_APPROVAL" →
      (api_mark_published ts (some job)).2 = some job2 →
      job2.state = "PUBLISHED" ∧ job2.published_at = some ts ∧
      job2.delete_mp4_at = some (ts + 48 * 3600)) ∧
    (∀ (store : List (JobRow × JobFiles)) (ts2 : Int) (i : Nat)
      (hi : i < store.length) (hi2 : i < (cleanup_cycle ts2 store).length),
      (cleanupDue ts2 (store.get ⟨i, hi⟩).1 = true →
        ((cleanup_cycle ts2 store).get ⟨i, hi2⟩).1.state = "CLEANED" ∧
        ((cleanup_cycle ts2 store).get ⟨i, hi2⟩).2.mp4Exists = false ∧
        ((cleanup_cycle ts2 store).get ⟨i, hi2⟩).2.previewExists = false) ∧
      (cleanupDue ts2 (store.get ⟨i, hi⟩).1 = false →
        (cleanup_cycle ts2 store).get ⟨i, hi2⟩ = store.get ⟨i, hi⟩)) := by
  refine ⟨?_, ?_, ?_, ?_⟩
  · constructor
    · intro h
      by_contra hs
      rw [api_mark_published] at h
      rw [if_neg hs] at h
      have h9 : (409 : Nat) = 200 := h
      exact absurd h9 (by decide)
    · intro hs
      simp [api_mark_published, hs]
  · intro hs
    simp [api_mark_published, hs]
  · intro job2 hs h2
    have hnc : ¬ job.state = "CANCELLED" := by
      rcases hs with h | h <;> rw [h] <;> decide
    rw [api_mark_published] at h2
    rw [if_pos hs] at h2
    simp only [Option.some.injEq] at h2
    subst h2
    refine ⟨?_, ?_, ?_⟩ <;>
      rw [update_job_state, if_neg (by
        intro hc
        exact hnc hc.2)]
  · intro store ts2 i hi hi2
    have key : (cleanup_cycle ts2 store).get ⟨i, hi2⟩ =
        (if cleanupDue ts2 ((store.get ⟨i, hi⟩).1) then
          (update_job_state (store.get ⟨i, hi⟩).1 ts2
            ⟨"CLEANED", some "CLEANUP", none, none, some "mp4 deleted", none, none, none⟩,
            ⟨false, false⟩)
         else store.get ⟨i, hi⟩) := by
      simp only [cleanup_cycle, List.get_eq_getElem, List.getElem_map]
    constructor
    · intro hdue
      have hpub : (store.get ⟨i, hi⟩).1.state = "PUBLISHED" := by
        have h3 := hdue
        rw [cleanupDue] at h3
        simp only [Bool.and_eq_true, beq_iff_eq] at h3
        exact h3.1
      rw [key, if_pos hdue]
      refine ⟨?_, rfl, rfl⟩
      rw [show ((update_job_state (store.get ⟨i, hi⟩).1 ts2
            ⟨"CLEANED", some "CLEANUP", none, none, some "mp4 deleted", none, none, none⟩,
            (⟨false, false⟩ : JobFiles)) : (JobRow × JobFiles)).1 =
          update_job_state (store.get ⟨i, hi⟩).1 ts2
            ⟨"CLEANED", some "CLEANUP", none, none, some "mp4 deleted", none, none, none⟩
        from rfl]
      rw [update_job_state, if_neg (by rw [hpub]; decide)]
    · intro hdue
      rw [key, if_neg (by rw [hdue]; decide)]

/-- Witness for C7: the APPROVED job `jApproved` published at t = 1000, and
the store `pubStore` cleaned at t = 173800, where row 0 is due and row 1 is
not. -/
theorem mark_published_retention_correct_witness :
    ((api_mark_published 1000 (some jApproved)).1 = 200 ↔
      (jApproved.state = "APPROVED" ∨ jApproved.state = "WAIT_APPROVAL")) ∧
    ((update_job_state jApproved 1000
        ⟨"PUBLISHED", some "APPROVAL", none, none, none, none, some 1000,
          some (1000 + 48 * 3600)⟩).state = "PUBLISHED" ∧
      (update_job_state jApproved 1000
        ⟨"PUBLISHED", some "APPROVAL", none, none, none, none, some 1000,
          some (1000 + 48 * 3600)⟩).published_at = some 1000 ∧
      (update_job_state jApproved 1000
        ⟨"PUBLISHED", some "APPROVAL", none, none, none, none, some 1000,
          some (1000 + 48 * 3600)⟩).delete_mp4_at = some (1000 + 48 * 3600)) ∧
    (((cleanup_cycle 173800 pubStore).get ⟨0, by decide⟩).1.state = "CLEANED" ∧
      ((cleanup_cycle 173800 pubStore).get ⟨0, by decide⟩).2.mp4Exists = false ∧
      ((cleanup_cycle 173800 pubStore).get ⟨0, by decide⟩).2.previewExists = false) ∧
    (cleanup_cycle 173800 pubStore).get ⟨1, by decide⟩ = pubStore.get ⟨1, by decide⟩ := by
  have h := mark_published_retention_correct jApproved 1000
  refine ⟨h.1, ?_, ?_, ?_⟩
  · exact h.2.2.1 (update_job_state jApproved 1000
      ⟨"PUBLISHED", some "APPROVAL", none, none, none, none, some 1000,
        some (1000 + 48 * 3600)⟩) (Or.inl rfl) rfl
  · exact (h.2.2.2 pubStore 173800 0 (by decide) (by decide)).1 (by decide)
  · exact (h.2.2.2 pubStore 173800 1 (by decide) (by decide)).2 (by decide)

namespace FactoryVM

/-- The row selection of `db.reclaim_stale_render_jobs`: in FETCHING_INPUTS
or RENDERING, holding a lock whose `locked_at` is older than
`now − lock_ttl_sec`. -/
def staleRender (ttl ts : Int) (j : JobRow) : Bool :=
  (j.state == "FETCHING_INPUTS" || j.state == "RENDERING") &&
    j.locked_by.isSome &&
    (match j.locked_at with
      | some la => la < ts - ttl
      | none => false)

/-- The per-row body of the `reclaim_stale_render_jobs` loop: increment the
attempt, then either schedule a retry back to READY_FOR_RENDER or mark the
terminal RENDER_FAILED state, clearing retry_at and the lock. -/
def reclaimOne (backoff : Int) (max_attempts : Nat) (ts : Int) (j : JobRow) : JobRow :=
  let j1 := increment_attempt j ts
  if j1.attempt < max_attempts then
    schedule_retry j1 ts "READY_FOR_RENDER" "FETCH"
      ("attempt=" ++ toString j1.attempt ++ " retry: reclaimed stale lock from " ++ j.state)
      backoff
  else
    force_unlock
      (clear_retry
        (update_job_state j1 ts
          ⟨"RENDER_FAILED", some "RENDER",
            some ("attempt=" ++ toString j1.attempt ++
              " terminal: reclaimed stale lock from " ++ j.state),
            none, none, none, none, none⟩) ts) ts

/-- `db.reclaim_stale_render_jobs`: applies `reclaimOne` to every stale
FETCHING_INPUTS/RENDERING row and returns the new store together with the
number of reclaimed rows. -/
def reclaim_stale_render_jobs (store : List JobRow) (ttl backoff : Int)
    (max_attempts : Nat) (ts : Int) : List JobRow × Nat :=
  (store.map fun j => if staleRender ttl ts j then reclaimOne backoff max_attempts ts j else j,
    (store.filter (staleRender ttl ts)).length)

end FactoryVM

/-- C3: `reclaim_stale_render_jobs` increments the attempt of every job in
FETCHING_INPUTS or RENDERING whose non-null lock is older than
`now − lock_ttl_sec`, and then moves it to READY_FOR_RENDER with
`retry_at = now + backoff_sec` and lock cleared when the incremented
attempt is below `max_attempts`, and otherwise to RENDER_FAILED with
retry_at and lock cleared; every other row is left unchanged. -/
theorem reclaim_stale_render_jobs_correct (store : List JobRow)
    (ttl backoff : Int) (max_attempts : Nat) (ts : Int)
    (i : Nat) (hi : i < store.length)
    (hi2 : i < (reclaim_stale_render_jobs store ttl backoff max_attempts ts).1.length) :
    (staleRender ttl ts (store.get ⟨i, hi⟩) = true →
      ((reclaim_stale_render_jobs store ttl backoff max_attempts ts).1.get ⟨i, hi2⟩).attempt =
        (store.get ⟨i, hi⟩).attempt + 1 ∧
      ((store.get ⟨i, hi⟩).attempt + 1 < max_attempts →
        ((reclaim_stale_render_jobs store ttl backoff max_attempts ts).1.get ⟨i, hi2⟩).state =
          "READY_FOR_RENDER" ∧
        ((reclaim_stale_render_jobs store ttl backoff max_attempts ts).1.get ⟨i, hi2⟩).retry_at =
          some (ts + backoff) ∧
        ((reclaim_stale_render_jobs store ttl backoff max_attempts ts).1.get ⟨i, hi2⟩).locked_by =
          none ∧
        ((reclaim_stale_render_jobs store ttl backoff max_attempts ts).1.get ⟨i, hi2⟩).locked_at =
          none) ∧
      (¬ (store.get ⟨i, hi⟩).attempt + 1 < max_attempts →
        ((reclaim_stale_render_jobs store ttl backoff max_attempts ts).1.get ⟨i, hi2⟩).state =
          "RENDER_FAILED" ∧
        ((reclaim_stale_render_jobs store ttl backoff max_attempts ts).1.get ⟨i, hi2⟩).retry_at =
          none ∧
        ((reclaim_stale_render_jobs store ttl backoff max_attempts ts).1.get ⟨i, hi2⟩).locked_by =
          none ∧
        ((reclaim_stale_render_jobs store ttl backoff max_attempts ts).1.get ⟨i, hi2⟩).locked_at =
          none)) ∧
    (staleRender ttl ts (store.get ⟨i, hi⟩) = false →
      (reclaim_stale_render_jobs store ttl backoff max_attempts ts).1.get ⟨i, hi2⟩ =
        store.get ⟨i, hi⟩) := by
  have key : (reclaim_stale_render_jobs store ttl backoff max_attempts ts).1.get ⟨i, hi2⟩ =
      (if staleRender ttl ts (store.get ⟨i, hi⟩) then
        reclaimOne backoff max_attempts ts (store.get ⟨i, hi⟩)
       else store.get ⟨i, hi⟩) := by
    simp only [reclaim_stale_render_jobs, List.get_eq_getElem, List.getElem_map]
  constructor
  · intro hstale
    have hnc : ¬ (store.get ⟨i, hi⟩).state = "CANCELLED" := by
      have h3 := hstale
      rw [staleRender] at h3
      simp only [Bool.and_eq_true, Bool.or_eq_true, beq_iff_eq] at h3
      rcases h3.1.1 with h4 | h4 <;> rw [h4] <;> decide
    rw [key, if_pos hstale]
    rw [reclaimOne]
    by_cases hlt : (store.get ⟨i, hi⟩).attempt + 1 < max_attempts
    · have hlt2 : (increment_attempt (store.get ⟨i, hi⟩) ts).attempt < max_attempts := hlt
      rw [if_pos hlt2]
      rw [schedule_retry, if_neg (by
        intro hc
        exact hnc hc)]
      exact ⟨rfl, fun _ => ⟨rfl, rfl, rfl, rfl⟩, fun hn => absurd hlt hn⟩
    · have hlt2 : ¬ (increment_attempt (store.get ⟨i, hi⟩) ts).attempt < max_attempts := hlt
      rw [if_neg hlt2]
      rw [update_job_state, if_neg (by
        intro hc
        exact hnc hc.2)]
      exact ⟨rfl, fun hy => absurd hy hlt, fun _ => ⟨rfl, rfl, rfl, rfl⟩⟩
  · intro hstale
    rw [key, if_neg (by rw [hstale]; decide)]

/-- Witness for C3: a three-row store at `ts = 1000`, `ttl = 10`,
`backoff = 300`, `max_attempts = 3`: row 0 is stale RENDERING with
attempt 0 (retried), row 1 is stale FETCHING_INPUTS with attempt 9
(terminal), row 2 holds a fresh lock (untouched). -/
theorem reclaim_stale_render_jobs_correct_witness :
    (((reclaim_stale_render_jobs
        [⟨1, "RENDERING", "RENDER", 0, 0, some "w1", some 1, none, 0, none, none,
            none, none, none, none, 1, 2⟩,
          ⟨2, "FETCHING_INPUTS", "FETCH", 0, 9, some "w2", some 1, none, 0, none,
            none, none, none, none, none, 1, 2⟩,
          ⟨3, "RENDERING", "RENDER", 0, 0, some "w3", some 999, none, 0, none,
            none, none, none, none, none, 1, 2⟩]
        10 300 3 1000).1.get ⟨0, by decide⟩).attempt = 0 + 1 ∧
      ((reclaim_stale_render_jobs
        [⟨1, "RENDERING", "RENDER", 0, 0, some "w1", some 1, none, 0, none, none,
            none, none, none, none, 1, 2⟩,
          ⟨2, "FETCHING_INPUTS", "FETCH", 0, 9, some "w2", some 1, none, 0, none,
            none, none, none, none, none, 1, 2⟩,
          ⟨3, "RENDERING", "RENDER", 0, 0, some "w3", some 999, none, 0, none,
            none, none, none, none, none, 1, 2⟩]
        10 300 3 1000).1.get ⟨0, by decide⟩).state = "READY_FOR_RENDER" ∧
      ((reclaim_stale_render_jobs
        [⟨1, "RENDERING", "RENDER", 0, 0, some "w1", some 1, none, 0, none, none,
            none, none, none, none, 1, 2⟩,
          ⟨2, "FETCHING_INPUTS", "FETCH", 0, 9, some "w2", some 1, none, 0, none,
            none, none, none, none, none, 1, 2⟩,
          ⟨3, "RENDERING", "RENDER", 0, 0, some "w3", some 999, none, 0, none,
            none, none, none, none, none, 1, 2⟩]
        10 300 3 1000).1.get ⟨0, by decide⟩).retry_at = some (1000 + 300)) ∧
    (((reclaim_stale_render_jobs
        [⟨1, "RENDERING", "RENDER", 0, 0, some "w1", some 1, none, 0, none, none,
            none, none, none, none, 1, 2⟩,
          ⟨2, "FETCHING_INPUTS", "FETCH", 0, 9, some "w2", some 1, none, 0, none,
            none, none, none, none, none, 1, 2⟩,
          ⟨3, "RENDERING", "RENDER", 0, 0, some "w3", some 999, none, 0, none,
            none, none, none, none, none, 1, 2⟩]
        10 300 3 1000).1.get ⟨1, by decide⟩).state = "RENDER_FAILED" ∧
      ((reclaim_stale_render_jobs
        [⟨1, "RENDERING", "RENDER", 0, 0, some "w1", some 1, none, 0, none, none,
            none, none, none, none, 1, 2⟩,
          ⟨2, "FETCHING_INPUTS", "FETCH", 0, 9, some "w2", some 1, none, 0, none,
            none, none, none, none, none, 1, 2⟩,
          ⟨3, "RENDERING", "RENDER", 0, 0, some "w3", some 999, none, 0, none,
            none, none, none, none, none, 1, 2⟩]
        10 300 3 1000).1.get ⟨1, by decide⟩).retry_at = none ∧
      ((reclaim_stale_render_jobs
        [⟨1, "RENDERING", "RENDER", 0, 0, some "w1", some 1, none, 0, none, none,
            none, none, none, none, 1, 2⟩,
          ⟨2, "FETCHING_INPUTS", "FETCH", 0, 9, some "w2", some 1, none, 0, none,
            none, none, none, none, none, 1, 2⟩,
          ⟨3, "RENDERING", "RENDER", 0, 0, some "w3", some 999, none, 0, none,
            none, none, none, none, none, 1, 2⟩]
        10 300 3 1000).1.get ⟨1, by decide⟩).locked_by = none) ∧
    (reclaim_stale_render_jobs
        [⟨1, "RENDERING", "RENDER", 0, 0, some "w1", some 1, none, 0, none, none,
            none, none, none, none, 1, 2⟩,
          ⟨2, "FETCHING_INPUTS", "FETCH", 0, 9, some "w2", some 1, none, 0, none,
            none, none, none, none, none, 1, 2⟩,
          ⟨3, "RENDERING", "RENDER", 0, 0, some "w3", some 999, none, 0, none,
            none, none, none, none, none, 1, 2⟩]
        10 300 3 1000).1.get ⟨2, by decide⟩ =
      ⟨3, "RENDERING", "RENDER", 0, 0, some "w3", some 999, none, 0, none,
        none, none, none, none, none, 1, 2⟩ := by
  have h0 := reclaim_stale_render_jobs_correct
    [⟨1, "RENDERING", "RENDER", 0, 0, some "w1", some 1, none, 0, none, none,
        none, none, none, none, 1, 2⟩,
      ⟨2, "FETCHING_INPUTS", "FETCH", 0, 9, some "w2", some 1, none, 0, none,
        none, none, none, none, none, 1, 2⟩,
      ⟨3, "RENDERING", "RENDER", 0, 0, some "w3", some 999, none, 0, none,
        none, none, none, none, none, 1, 2⟩]
    10 300 3 1000 0 (by decide) (by decide)
  have h1 := reclaim_stale_render_jobs_correct
    [⟨1, "RENDERING", "RENDER", 0, 0, some "w1", some 1, none, 0, none, none,
        none, none, none, none, 1, 2⟩,
      ⟨2, "FETCHING_INPUTS", "FETCH", 0, 9, some "w2", some 1, none, 0, none,
        none, none, none, none, none, 1, 2⟩,
      ⟨3, "RENDERING", "RENDER", 0, 0, some "w3", some 999, none, 0, none,
        none, none, none, none, none, 1, 2⟩]
    10 300 3 1000 1 (by decide) (by decide)
  have h2 := reclaim_stale_render_jobs_correct
    [⟨1, "RENDERING", "RENDER", 0, 0, some "w1", some 1, none, 0, none, none,
        none, none, none, none, 1, 2⟩,
      ⟨2, "FETCHING_INPUTS", "FETCH", 0, 9, some "w2", some 1, none, 0, none,
        none, none, none, none, none, 1, 2⟩,
      ⟨3, "RENDERING", "RENDER", 0, 0, some "w3", some 999, none, 0, none,
        none, none, none, none, none, 1, 2⟩]
    10 300 3 1000 2 (by decide) (by decide)
  have h0s := h0.1 (by decide)
  have h1s := h1.1 (by decide)
  refine ⟨⟨h0s.1, (h0s.2.1 (by decide)).1, (h0s.2.1 (by decide)).2.1⟩,
    ⟨(h1s.2.2 (by decide)).1, (h1s.2.2 (by decide)).2.1, (h1s.2.2 (by decide)).2.2.1⟩,
    h2.2 (by decide)⟩

namespace FactoryVM

/-- True when the row's `locked_at` is non-null and before `expiry`. -/
def lockedAtBefore (j : JobRow) (expiry : Int) : Bool :=
  match j.locked_at with
  | some la => la < expiry
  | none => false

/-- The WHERE clause of the expired-lease release inside `db.claim_job`:
state matches, lock-holder non-null, lock-time non-null and expired. -/
def sweepCond (want : String) (expiry : Int) (j : JobRow) : Bool :=
  (j.state == want) && j.locked_by.isSome && lockedAtBefore j expiry

/-- The expired-lease release UPDATE inside `db.claim_job`. -/
def releaseExpired (store : List JobRow) (want : String) (expiry ts : Int) :
    List JobRow :=
  store.map fun j =>
    if sweepCond want expiry j then
      { j with locked_by := none, locked_at := none, updated_at := ts }
    else j

/-- The retry_at filter of the selection: null or already due. -/
def retryOk (j : JobRow) (ts : Int) : Bool :=
  match j.retry_at with
  | some r => r ≤ ts
  | none => true

/-- The WHERE clause of the selection inside `db.claim_job`. -/
def eligible (want : String) (ts : Int) (j : JobRow) : Bool :=
  (j.state == want) && j.locked_by.isNone && retryOk j ts

/-- Strictly precedes in the ORDER BY priority DESC, created_at ASC order. -/
def betterJob (a b : JobRow) : Bool :=
  (b.priority < a.priority) || (a.priority == b.priority && a.created_at < b.created_at)

/-- The ORDER BY ... LIMIT 1 of the selection: a maximal row of the list
in the `betterJob` order (the earliest such row on full ties). -/
def pickBest : List JobRow → Option JobRow
  | [] => none
  | j :: rest =>
    match pickBest rest with
    | none => some j
    | some b => if betterJob b j then some b else some j

/-- `db.claim_job`: inside one immediate transaction release expired
leases, select the best eligible row, conditionally lock it
(WHERE lock-holder still null) and return its id when that UPDATE hit
exactly one row.  The result is the store after commit and the returned
job id. -/
def claim_job (store : List JobRow) (want_state worker_id : String)
    (lock_ttl_sec ts : Int) : List JobRow × Option Nat :=
  let expiry := ts - lock_ttl_sec
  let swept := releaseExpired store want_state expiry ts
  match pickBest (swept.filter (eligible want_state ts)) with
  | none => (swept, none)
  | some jsel =>
      (swept.map fun k =>
          if k.id == jsel.id && k.locked_by.isNone then
            { k with locked_by := some worker_id, locked_at := some ts, updated_at := ts }
          else k,
        if (swept.filter fun k => k.id == jsel.id && k.locked_by.isNone).length = 1 then
          some jsel.id
        else none)

end FactoryVM

namespace ClaimLemmas

/-- The expired-lease release does not change any row's id. -/
theorem releaseExpired_ids (store : List JobRow) (want : String) (expiry ts : Int) :
    (releaseExpired store want expiry ts).map JobRow.id = store.map JobRow.id := by
  rw [releaseExpired, List.map_map]
  apply List.map_congr_left
  intro j hj
  by_cases h : sweepCond want expiry j
  · simp [h]
  · simp [h]

theorem betterJob_irrefl (a : JobRow) : betterJob a a = false := by
  simp [betterJob]

theorem betterJob_neg_trans (a b c : JobRow) (hab : betterJob a b = false)
    (hbc : betterJob b c = false) : betterJob a c = false := by
  rw [betterJob] at *
  simp only [Bool.or_eq_false_iff, Bool.and_eq_false_iff, decide_eq_false_iff_not,
    beq_eq_false_iff_ne, ne_eq, Bool.and_eq_false_imp, beq_iff_eq] at *
  omega

theorem pickBest_mem (l : List JobRow) (j : JobRow) (h : pickBest l = some j) : j ∈ l := by
  induction l generalizing j with
  | nil => cases h
  | cons a t ih =>
    rw [pickBest] at h
    rcases hp : pickBest t with _ | b
    · rw [hp] at h
      dsimp only at h
      cases h
      exact List.mem_cons_self a t
    · rw [hp] at h
      dsimp only at h
      by_cases hb : betterJob b a
      · rw [if_pos hb] at h
        cases h
        exact List.mem_cons_of_mem a (ih _ hp)
      · rw [if_neg hb] at h
        cases h
        exact List.mem_cons_self a t

theorem pickBest_none (l : List JobRow) (h : pickBest l = none) : l = [] := by
  cases l with
  | nil => rfl
  | cons a t =>
    rw [pickBest] at h
    rcases hp : pickBest t with _ | b
    · rw [hp] at h
      dsimp only at h
      cases h
    · rw [hp] at h
      dsimp only at h
      by_cases hb : betterJob b a
      · rw [if_pos hb] at h; cases h
      · rw [if_neg hb] at h; cases h

theorem pickBest_maximal (l : List JobRow) (j : JobRow) (h : pickBest l = some j) :
    ∀ k ∈ l, betterJob k j = false := by
  induction l generalizing j with
  | nil => cases h
  | cons a t ih =>
    intro k hk
    rw [pickBest] at h
    rcases hp : pickBest t with _ | b
    · rw [hp] at h
      dsimp only at h
      rw [Option.some.injEq] at h
      rw [← h]
      have ht := pickBest_none t hp
      subst ht
      rcases List.mem_cons.mp hk with hka | hkt
      · rw [hka]
        exact betterJob_irrefl a
      · cases hkt
    · rw [hp] at h
      dsimp only at h
      by_cases hb : betterJob b a
      · rw [if_pos hb] at h
        rw [Option.some.injEq] at h
        rw [← h]
        rcases List.mem_cons.mp hk with hka | hkt
        · rw [hka]
          cases hcontra : betterJob a b with
          | false => rfl
          | true =>
            exfalso
            rw [betterJob] at hb hcontra
            simp only [Bool.or_eq_true, Bool.and_eq_true, decide_eq_true_eq,
              beq_iff_eq] at hb hcontra
            omega
        · exact ih _ hp k hkt
      · rw [if_neg hb] at h
        rw [Option.some.injEq] at h
        rw [← h]
        rcases List.mem_cons.mp hk with hka | hkt
        · rw [hka]
          exact betterJob_irrefl a
        · have hkb := ih _ hp k hkt
          have hba : betterJob b a = false := by
            cases hcontra : betterJob b a
            · rfl
            · rw [hcontra] at hb
              exact absurd rfl hb
          exact betterJob_neg_trans k b a hkb hba

/-- In a store whose ids are pairwise distinct, two member rows with the
same id are the same row. -/
theorem nodup_id_eq (l : List JobRow) (hnd : (l.map JobRow.id).Nodup)
    (a b : JobRow) (ha : a ∈ l) (hb : b ∈ l) (hid : a.id = b.id) : a = b :=
  List.inj_on_of_nodup_map hnd ha hb hid

/-- In a store whose ids are pairwise distinct, the conditional-lock UPDATE
of `claim_job` matches exactly the selected (unlocked) row. -/
theorem filter_idlock_len_one (l : List JobRow) (hnd : (l.map JobRow.id).Nodup)
    (j : JobRow) (hj : j ∈ l) (hlock : j.locked_by.isNone = true) :
    (l.filter fun k => k.id == j.id && k.locked_by.isNone).length = 1 := by
  induction l with
  | nil => cases hj
  | cons a t ih =>
    rw [List.map_cons, List.nodup_cons] at hnd
    rcases List.mem_cons.mp hj with heq | hjt
    · rw [heq] at hlock ⊢
      rw [List.filter_cons]
      have hpa : (a.id == a.id && a.locked_by.isNone) = true := by
        simp [hlock]
      rw [if_pos (by rw [hpa])]
      have hft : (t.filter fun k => k.id == a.id && k.locked_by.isNone) = [] := by
        rw [List.filter_eq_nil_iff]
        intro k hk hcontra
        simp only [Bool.and_eq_true, beq_iff_eq] at hcontra
        exact hnd.1 (hcontra.1 ▸ List.mem_map_of_mem JobRow.id hk)
      rw [hft]
      rfl
    · rw [List.filter_cons]
      have hpa : (a.id == j.id && a.locked_by.isNone) = false := by
        have hne : a.id ≠ j.id := by
          intro hcontra
          exact hnd.1 (hcontra ▸ List.mem_map_of_mem JobRow.id hjt)
        simp [hne]
      rw [if_neg (by rw [hpa]; decide)]
      exact ih hnd.2 hjt

end ClaimLemmas

/-- C1 counterexample: the claim releases the lease of every job in
`want_state` whose `locked_at` is older than `now − lock_ttl_sec`, without
requiring a non-null lock holder; the code additionally requires
`locked_by IS NOT NULL`.  On a store with one READY_FOR_RENDER job whose
lock holder is null but whose stale `locked_at` is set (and whose
`retry_at` is in the future, so it is not selected), the claim demands
`locked_at = null` after the call while the code leaves `locked_at`
unchanged. -/
theorem claim_job_sweep_counterexample :
    (claim_job
      [⟨1, "READY_FOR_RENDER", "FETCH", 0, 0, none, some 0, some 1000, 0, none,
          none, none, none, none, none, 1, 2⟩]
      "READY_FOR_RENDER" "w1" 100 500).2 = none ∧
    ((claim_job
      [⟨1, "READY_FOR_RENDER", "FETCH", 0, 0, none, some 0, some 1000, 0, none,
          none, none, none, none, none, 1, 2⟩]
      "READY_FOR_RENDER" "w1" 100 500).1.map JobRow.locked_at = [some 0]) ∧
    (0 : Int) < 500 - 100 := by
  decide

/-- C1 (amended): `claim_job` first nulls the lock fields of every job in
`want_state` whose lock holder is non-null and whose `locked_at` is older
than `now − lock_ttl_sec` (the amendment adds the non-null lock holder
condition, as in the code's WHERE clause); it returns a job id only for a
job that, after that release, is in `want_state` with null lock holder and
retry_at null or ≤ now, maximal in priority and, on ties, earliest by
created_at among such jobs; it leaves the returned job locked by
`worker_id` at time `now`, and every job other than the returned one is
either lease-released exactly as described or left unchanged; if no
eligible job exists it returns no job.  Stated for stores with pairwise
distinct ids, row by row. -/
theorem claim_job_correct (store : List JobRow) (want worker : String) (ttl ts : Int)
    (hnd : (store.map JobRow.id).Nodup) (i : Nat) (j j2 : JobRow)
    (hj : store[i]? = some j)
    (hj2 : (claim_job store want worker ttl ts).1[i]? = some j2) :
    (claim_job store want worker ttl ts).1.length = store.length ∧
    j2.id = j.id ∧
    ((claim_job store want worker ttl ts).2 = some j.id →
      j2.locked_by = some worker ∧ j2.locked_at = some ts) ∧
    ((claim_job store want worker ttl ts).2 ≠ some j.id →
      (sweepCond want (ts - ttl) j = true →
        j2.locked_by = none ∧ j2.locked_at = none) ∧
      (sweepCond want (ts - ttl) j = false → j2 = j)) ∧
    (∀ jid, (claim_job store want worker ttl ts).2 = some jid →
      ∃ jsel ∈ releaseExpired store want (ts - ttl) ts,
        jsel.id = jid ∧ jsel.state = want ∧ jsel.locked_by = none ∧
        retryOk jsel ts = true ∧
        ∀ k ∈ releaseExpired store want (ts - ttl) ts,
          eligible want ts k = true → betterJob k jsel = false) ∧
    ((claim_job store want worker ttl ts).2 = none →
      ∀ k ∈ releaseExpired store want (ts - ttl) ts,
        eligible want ts k = false) := by
  have hswlen : (releaseExpired store want (ts - ttl) ts).length = store.length := by
    rw [releaseExpired, List.length_map]
  have hswids := ClaimLemmas.releaseExpired_ids store want (ts - ttl) ts
  have hswnodup : ((releaseExpired store want (ts - ttl) ts).map JobRow.id).Nodup := by
    rw [hswids]; exact hnd
  have hsw : (releaseExpired store want (ts - ttl) ts)[i]? =
      some (if sweepCond want (ts - ttl) j then
        { j with locked_by := none, locked_at := none, updated_at := ts }
      else j) := by
    rw [releaseExpired, List.getElem?_map, hj]
    rfl
  rcases hpb : pickBest ((releaseExpired store want (ts - ttl) ts).filter
      (eligible want ts)) with _ | jsel
  · -- no eligible job: the store is the swept store and no id is returned
    have hout : claim_job store want worker ttl ts =
        (releaseExpired store want (ts - ttl) ts, none) := by
      simp only [claim_job]
      rw [hpb]
    rw [hout] at hj2
    rw [hsw] at hj2
    injection hj2 with hj2
    have hfe := ClaimLemmas.pickBest_none _ hpb
    refine ⟨?_, ?_, ?_, ?_, ?_, ?_⟩
    · rw [hout]; exact hswlen
    · rw [← hj2]
      by_cases hsc : sweepCond want (ts - ttl) j = true
      · rw [if_pos hsc]
      · rw [if_neg hsc]
    · intro hcontra
      rw [hout] at hcontra
      cases hcontra
    · intro _
      constructor
      · intro hsc
        rw [← hj2, if_pos hsc]
        exact ⟨rfl, rfl⟩
      · intro hsc
        rw [← hj2, if_neg (by rw [hsc]; decide)]
    · intro jid hcontra
      rw [hout] at hcontra
      cases hcontra
    · intro _ k hk
      have := List.filter_eq_nil_iff.mp hfe k hk
      cases heq : eligible want ts k
      · rfl
      · exact absurd heq this
  · -- a best eligible job exists: it is locked and returned
    have hjselE := ClaimLemmas.pickBest_mem _ _ hpb
    have hjsel_mem : jsel ∈ releaseExpired store want (ts - ttl) ts :=
      (List.mem_filter.mp hjselE).1
    have hjsel_el : eligible want ts jsel = true := (List.mem_filter.mp hjselE).2
    have hjsel_parts : jsel.state = want ∧ jsel.locked_by = none ∧
        retryOk jsel ts = true := by
      rw [eligible] at hjsel_el
      simp only [Bool.and_eq_true, beq_iff_eq, Option.isNone_iff_eq_none] at hjsel_el
      exact ⟨hjsel_el.1.1, hjsel_el.1.2, hjsel_el.2⟩
    have hlockednone : jsel.locked_by.isNone = true := by
      rw [hjsel_parts.2.1]; rfl
    have hcnt : ((releaseExpired store want (ts - ttl) ts).filter
        fun k => k.id == jsel.id && k.locked_by.isNone).length = 1 :=
      ClaimLemmas.filter_idlock_len_one _ hswnodup jsel hjsel_mem hlockednone
    have hout : claim_job store want worker ttl ts =
        ((releaseExpired store want (ts - ttl) ts).map fun k =>
          if k.id == jsel.id && k.locked_by.isNone then
            { k with locked_by := some worker, locked_at := some ts, updated_at := ts }
          else k,
          some jsel.id) := by
      simp only [claim_job]
      rw [hpb]
      dsimp only
      rw [if_pos hcnt]
    rw [hout] at hj2
    rw [List.getElem?_map, hsw] at hj2
    injection hj2 with hj2
    dsimp only at hj2
    have hswrow_mem : (if sweepCond want (ts - ttl) j then
        { j with locked_by := none, locked_at := none, updated_at := ts }
      else j) ∈ releaseExpired store want (ts - ttl) ts :=
      List.getElem?_mem hsw
    have hswrow_id : (if sweepCond want (ts - ttl) j then
        { j with locked_by := none, locked_at := none, updated_at := ts }
      else j).id = j.id := by
      by_cases hsc : sweepCond want (ts - ttl) j = true
      · rw [if_pos hsc]
      · rw [if_neg hsc]
    refine ⟨?_, ?_, ?_, ?_, ?_, ?_⟩
    · rw [hout, List.length_map]
      exact hswlen
    · rw [← hj2]
      by_cases hc : ((if sweepCond want (ts - ttl) j then
          { j with locked_by := none, locked_at := none, updated_at := ts }
        else j).id == jsel.id &&
          (if sweepCond want (ts - ttl) j then
            { j with locked_by := none, locked_at := none, updated_at := ts }
          else j).locked_by.isNone) = true
      · rw [if_pos hc]
        exact hswrow_id
      · rw [if_neg hc]
        exact hswrow_id
    · intro hpme
      rw [hout] at hpme
      injection hpme with hpme
      have hrow_eq : (if sweepCond want (ts - ttl) j then
          { j with locked_by := none, locked_at := none, updated_at := ts }
        else j) = jsel :=
        ClaimLemmas.nodup_id_eq _ hswnodup _ _ hswrow_mem hjsel_mem
          (by rw [hswrow_id, ← hpme])
      rw [hrow_eq] at hj2
      rw [if_pos (by
        rw [hlockednone]
        simp)] at hj2
      rw [← hj2]
      exact ⟨rfl, rfl⟩
    · intro hne
      have hidne : jsel.id ≠ j.id := by
        intro hcontra
        exact hne (by rw [hout, hcontra])
      have hcond : ((if sweepCond want (ts - ttl) j then
          { j with locked_by := none, locked_at := none, updated_at := ts }
        else j).id == jsel.id) = false := by
        rw [hswrow_id]
        exact beq_eq_false_iff_ne.mpr fun hcontra => hidne hcontra.symm
      rw [hcond, Bool.false_and] at hj2
      rw [if_neg (show ¬ (false = true) by decide)] at hj2
      constructor
      · intro hsc
        rw [if_pos hsc] at hj2
        rw [← hj2]
        exact ⟨rfl, rfl⟩
      · intro hsc
        rw [if_neg (by rw [hsc]; decide)] at hj2
        exact hj2.symm
    · intro jid hjid
      rw [hout] at hjid
      injection hjid with hjid
      refine ⟨jsel, hjsel_mem, hjid, hjsel_parts.1, hjsel_parts.2.1,
        hjsel_parts.2.2, ?_⟩
      intro k hk hke
      exact ClaimLemmas.pickBest_maximal _ _ hpb k (List.mem_filter.mpr ⟨hk, hke⟩)
    · intro hcontra
      rw [hout] at hcontra
      cases hcontra

/-- Row 0 of the C1 witness store: stale lock held by a dead worker. -/
def claimJ1 : JobRow :=
  ⟨1, "READY_FOR_RENDER", "FETCH", 0, 0, some "dead", some 0, none, 0, none,
    none, none, none, none, none, 10, 10⟩

/-- Row 1 of the C1 witness store: unlocked, highest priority. -/
def claimJ2 : JobRow :=
  ⟨2, "READY_FOR_RENDER", "FETCH", 5, 0, none, none, none, 0, none,
    none, none, none, none, none, 20, 20⟩

/-- Row 2 of the C1 witness store: different state, untouched. -/
def claimJ3 : JobRow :=
  ⟨3, "QA_RUNNING", "QA", 0, 0, none, none, none, 0, none,
    none, none, none, none, none, 30, 30⟩

/-- The C1 witness store. -/
def claimStore : List JobRow := [claimJ1, claimJ2, claimJ3]

/-- Row 1 of the C1 witness store after being claimed by worker w1 at 500. -/
def claimJ2locked : JobRow :=
  ⟨2, "READY_FOR_RENDER", "FETCH", 5, 0, some "w1", some 500, none, 0, none,
    none, none, none, none, none, 20, 500⟩

/-- Witness for C1: on `claimStore` with `ttl = 100`, `now = 500`, the claim
goes to row 1 (id 2, the highest-priority eligible row) and the theorem's
conclusions hold at that row. -/
theorem claim_job_correct_witness :
    (claim_job claimStore "READY_FOR_RENDER" "w1" 100 500).1.length =
      claimStore.length ∧
    claimJ2locked.id = claimJ2.id ∧
    ((claim_job claimStore "READY_FOR_RENDER" "w1" 100 500).2 = some claimJ2.id →
      claimJ2locked.locked_by = some "w1" ∧ claimJ2locked.locked_at = some 500) ∧
    ((claim_job claimStore "READY_FOR_RENDER" "w1" 100 500).2 ≠ some claimJ2.id →
      (sweepCond "READY_FOR_RENDER" (500 - 100) claimJ2 = true →
        claimJ2locked.locked_by = none ∧ claimJ2locked.locked_at = none) ∧
      (sweepCond "READY_FOR_RENDER" (500 - 100) claimJ2 = false →
        claimJ2locked = claimJ2)) ∧
    (∀ jid, (claim_job claimStore "READY_FOR_RENDER" "w1" 100 500).2 = some jid →
      ∃ jsel ∈ releaseExpired claimStore "READY_FOR_RENDER" (500 - 100) 500,
        jsel.id = jid ∧ jsel.state = "READY_FOR_RENDER" ∧ jsel.locked_by = none ∧
        retryOk jsel 500 = true ∧
        ∀ k ∈ releaseExpired claimStore "READY_FOR_RENDER" (500 - 100) 500,
          eligible "READY_FOR_RENDER" 500 k = true → betterJob k jsel = false) ∧
    ((claim_job claimStore "READY_FOR_RENDER" "w1" 100 500).2 = none →
      ∀ k ∈ releaseExpired claimStore "READY_FOR_RENDER" (500 - 100) 500,
        eligible "READY_FOR_RENDER" 500 k = false) :=
  claim_job_correct claimStore "READY_FOR_RENDER" "w1" 100 500 (by decide) 1
    claimJ2 claimJ2locked (by decide) (by decide)

namespace FactoryVM

/-- The generic failure handler at the end of `orchestrator_cycle`
(`except Exception` block): increment the attempt, then schedule a retry
back to READY_FOR_RENDER or write the terminal RENDER_FAILED state with
retry_at cleared and the worker's lock released. -/
def orchestratorFailure (max_render_attempts : Nat) (backoff ts : Int)
    (worker : String) (e : String) (j : JobRow) : JobRow :=
  let j1 := increment_attempt j ts
  if j1.attempt < max_render_attempts then
    schedule_retry j1 ts "READY_FOR_RENDER" "FETCH"
      ("attempt=" ++ toString j1.attempt ++ " retry: " ++ e) backoff
  else
    release_lock
      (clear_retry
        (update_job_state j1 ts
          ⟨"RENDER_FAILED", some "RENDER", some e, none, none, none, none, none⟩) ts)
      worker ts

/-- `orchestrator_cycle` after the renderer child exits: `cancelled` is the
cancellation flag set by the 1 s polls, `ret` the child's exit code, and
`fatal_image_invalid` the text captured after a stdout line starting with
FATAL_IMAGE_INVALID: (used only as the message of the raised RuntimeError,
which the generic failure handler catches). -/
def renderChildOutcome (max_render_attempts : Nat) (backoff ts : Int)
    (worker : String) (cancelled : Bool) (ret : Int)
    (fatal_image_invalid : Option String) (j : JobRow) : JobRow :=
  if cancelled then
    release_lock (clear_retry (cancel_job j "cancelled by user" ts) ts) worker ts
  else if ret ≠ 0 then
    orchestratorFailure max_render_attempts backoff ts worker
      (match fatal_image_invalid with
        | some m => m
        | none => "renderer exited " ++ toString ret) j
  else j

end FactoryVM

/-- C6 (the code violates the claim): a job in RENDERING with attempt 0,
whose renderer prints a FATAL_IMAGE_INVALID: line and exits non-zero, is
rescheduled exactly like any other failure — it goes back to
READY_FOR_RENDER with retry_at = now + backoff — because the captured
message only feeds the RuntimeError that the generic retry handler
catches; the outcome state equals the one without a fatal line. -/
theorem fatal_image_invalid_retried :
    (renderChildOutcome 3 300 1000 "w1" false 1 (some "broken cover")
      ⟨1, "RENDERING", "RENDER", 0, 0, some "w1", some 900, none, 0, none,
        none, none, none, none, none, 1, 2⟩).state = "READY_FOR_RENDER" ∧
    (renderChildOutcome 3 300 1000 "w1" false 1 (some "broken cover")
      ⟨1, "RENDERING", "RENDER", 0, 0, some "w1", some 900, none, 0, none,
        none, none, none, none, none, 1, 2⟩).retry_at = some (1000 + 300) ∧
    (renderChildOutcome 3 300 1000 "w1" false 1 (some "broken cover")
      ⟨1, "RENDERING", "RENDER", 0, 0, some "w1", some 900, none, 0, none,
        none, none, none, none, none, 1, 2⟩).error_reason =
      some "attempt=1 retry: broken cover" ∧
    (renderChildOutcome 3 300 1000 "w1" false 1 (some "broken cover")
      ⟨1, "RENDERING", "RENDER", 0, 0, some "w1", some 900, none, 0, none,
        none, none, none, none, none, 1, 2⟩).state =
    (renderChildOutcome 3 300 1000 "w1" false 1 none
      ⟨1, "RENDERING", "RENDER", 0, 0, some "w1", some 900, none, 0, none,
        none, none, none, none, none, 1, 2⟩).state := by
  decide

namespace FactoryVM

/-- A freshly inserted `jobs` row (importer / UI draft INSERT): attempt 0,
no lock, no retry, schema defaults for the remaining columns. -/
def newJob (id : Nat) (st stage : String) (prio ts : Int) : JobRow :=
  ⟨id, st, stage, prio, 0, none, none, none, 0, none, none, none, none,
    none, none, ts, ts⟩

/-- The uploader's retry-or-terminal handler (missing-mp4 and upload-error
branches of `uploader_cycle`): increment the attempt, then schedule a retry
in UPLOADING or write the terminal UPLOAD_FAILED state with retry_at
cleared and the lock released. -/
def uploadFailurePolicy (max_upload_attempts : Nat) (backoff ts : Int)
    (worker retry_reason terminal_reason : String) (j : JobRow) : JobRow :=
  let j1 := increment_attempt j ts
  if j1.attempt < max_upload_attempts then
    schedule_retry j1 ts "UPLOADING" "UPLOAD" retry_reason backoff
  else
    release_lock
      (clear_retry
        (update_job_state j1 ts
          ⟨"UPLOAD_FAILED", some "UPLOAD", some terminal_reason,
            none, none, none, none, none⟩) ts)
      worker ts

/-- The credential-resolution / client-init failure branch of
`uploader_cycle`: increment the attempt and write UPLOAD_FAILED
immediately, with no attempt-count check. -/
def uploadCredentialFailure (ts : Int) (worker e : String) (j : JobRow) : JobRow :=
  release_lock
    (clear_retry
      (update_job_state (increment_attempt j ts) ts
        ⟨"UPLOAD_FAILED", some "UPLOAD", some e, none, none, none, none, none⟩) ts)
    worker ts

/-- The job-row states reachable through the store operations the workers
and the HTTP surface perform on a single job, with
`maxR = max_render_attempts`, `maxU = max_upload_attempts` and the
retry backoff fixed.  Each constructor embeds one mutation site of the
source (importer, orchestrator, QA worker, uploader, cleanup, approval
endpoints, and the db primitives they call). -/
inductive Reach (maxR maxU : Nat) (backoff : Int) : JobRow → Prop where
  | created_ready (id : Nat) (prio ts : Int) :
      Reach maxR maxU backoff (newJob id "READY_FOR_RENDER" "FETCH" prio ts)
  | created_waiting (id : Nat) (prio ts : Int) :
      Reach maxR maxU backoff (newJob id "WAITING_INPUTS" "FETCH" prio ts)
  | created_draft (id : Nat) (prio ts : Int) :
      Reach maxR maxU backoff (newJob id "DRAFT" "DRAFT" prio ts)
  | promote (j : JobRow) (h : Reach maxR maxU backoff j)
      (hs : j.state = "WAITING_INPUTS") (ts : Int) :
      Reach maxR maxU backoff
        { j with state := "READY_FOR_RENDER", stage := "FETCH", updated_at := ts }
  | draft_enqueue (j : JobRow) (h : Reach maxR maxU backoff j)
      (hs : j.state = "DRAFT") (ts : Int) :
      Reach maxR maxU backoff
        (update_job_state j ts
          ⟨"READY_FOR_RENDER", some "FETCH", some "", none, none, none, none, none⟩)
  | draft_error (j : JobRow) (h : Reach maxR maxU backoff j)
      (hs : j.state = "DRAFT") (e : String) (ts : Int) :
      Reach maxR maxU backoff
        (update_job_state j ts
          ⟨"DRAFT", some "DRAFT", some e, none, none, none, none, none⟩)
  | claim_lock (j : JobRow) (h : Reach maxR maxU backoff j)
      (hl : j.locked_by = none) (w : String) (ts : Int) :
      Reach maxR maxU backoff
        { j with locked_by := some w, locked_at := some ts, updated_at := ts }
  | lease_release (j : JobRow) (h : Reach maxR maxU backoff j) (ts : Int) :
      Reach maxR maxU backoff
        { j with locked_by := none, locked_at := none, updated_at := ts }
  | release_lock_step (j : JobRow) (h : Reach maxR maxU backoff j)
      (w : String) (ts : Int) :
      Reach maxR maxU backoff (release_lock j w ts)
  | clear_retry_step (j : JobRow) (h : Reach maxR maxU backoff j) (ts : Int) :
      Reach maxR maxU backoff (clear_retry j ts)
  | cancel (j : JobRow) (h : Reach maxR maxU backoff j)
      (reason : String) (ts : Int) :
      Reach maxR maxU backoff (cancel_job j reason ts)
  | to_fetching (j : JobRow) (h : Reach maxR maxU backoff j)
      (hs : j.state = "READY_FOR_RENDER") (ts : Int) :
      Reach maxR maxU backoff
        (update_job_state j ts
          ⟨"FETCHING_INPUTS", some "FETCH", none, some 0, some "fetching inputs",
            none, none, none⟩)
  | to_rendering (j : JobRow) (h : Reach maxR maxU backoff j)
      (hs : j.state = "FETCHING_INPUTS") (ts : Int) :
      Reach maxR maxU backoff
        (update_job_state j ts
          ⟨"RENDERING", some "RENDER", none, some 0, some "rendering",
            none, none, none⟩)
  | render_progress (j : JobRow) (h : Reach maxR maxU backoff j)
      (hs : j.state = "RENDERING") (pct ts : Int) :
      Reach maxR maxU backoff
        (update_job_state j ts
          ⟨"RENDERING", some "RENDER", none, some pct, some "rendering",
            none, none, none⟩)
  | render_failure (j : JobRow) (h : Reach maxR maxU backoff j)
      (hs : j.state = "FETCHING_INPUTS" ∨ j.state = "RENDERING")
      (w e : String) (ts : Int) :
      Reach maxR maxU backoff (orchestratorFailure maxR backoff ts w e j)
  | reclaim_step (j : JobRow) (h : Reach maxR maxU backoff j)
      (hs : j.state = "FETCHING_INPUTS" ∨ j.state = "RENDERING") (ts : Int) :
      Reach maxR maxU backoff (reclaimOne backoff maxR ts j)
  | render_success (j : JobRow) (h : Reach maxR maxU backoff j)
      (hs : j.state = "RENDERING") (ts : Int) :
      Reach maxR maxU backoff
        (update_job_state j ts
          ⟨"QA_RUNNING", some "QA", none, some 100, some "render done",
            none, none, none⟩)
  | qa_fail (j : JobRow) (h : Reach maxR maxU backoff j)
      (hs : j.state = "QA_RUNNING") (e : String) (ts : Int) :
      Reach maxR maxU backoff
        (update_job_state j ts
          ⟨"QA_FAILED", some "QA", some e, none, none, none, none, none⟩)
  | qa_pass (j : JobRow) (h : Reach maxR maxU backoff j)
      (hs : j.state = "QA_RUNNING") (ts : Int) :
      Reach maxR maxU backoff
        (update_job_state j ts
          ⟨"UPLOADING", some "UPLOAD", none, none, some "qa ok", none, none, none⟩)
  | upload_already (j : JobRow) (h : Reach maxR maxU backoff j)
      (hs : j.state = "UPLOADING") (ts : Int) :
      Reach maxR maxU backoff
        (update_job_state j ts
          ⟨"WAIT_APPROVAL", some "APPROVAL", none, none,
            some "already uploaded (private)", none, none, none⟩)
  | upload_failure (j : JobRow) (h : Reach maxR maxU backoff j)
      (hs : j.state = "UPLOADING") (w eRetry eTerm : String) (ts : Int) :
      Reach maxR maxU backoff (uploadFailurePolicy maxU backoff ts w eRetry eTerm j)
  | upload_cred_terminal (j : JobRow) (h : Reach maxR maxU backoff j)
      (hs : j.state = "UPLOADING") (w e : String) (ts : Int) :
      Reach maxR maxU backoff (uploadCredentialFailure ts w e j)
  | upload_success (j : JobRow) (h : Reach maxR maxU backoff j)
      (hs : j.state = "UPLOADING") (txt : String) (ts : Int) :
      Reach maxR maxU backoff
        (update_job_state j ts
          ⟨"WAIT_APPROVAL", some "APPROVAL", none, none, some txt,
            none, none, none⟩)
  | approve (j : JobRow) (h : Reach maxR maxU backoff j)
      (hs : j.state = "WAIT_APPROVAL") (ts : Int) :
      Reach maxR maxU backoff
        (update_job_state j ts
          ⟨"APPROVED", some "APPROVAL", none, none, none, none, none, none⟩)
  | reject (j : JobRow) (h : Reach maxR maxU backoff j)
      (hs : j.state = "WAIT_APPROVAL") (ts : Int) :
      Reach maxR maxU backoff
        (update_job_state j ts
          ⟨"REJECTED", some "APPROVAL", none, none, none, none, none, none⟩)
  | publish (j : JobRow) (h : Reach maxR maxU backoff j)
      (hs : j.state = "APPROVED" ∨ j.state = "WAIT_APPROVAL") (ts : Int) :
      Reach maxR maxU backoff
        (update_job_state j ts
          ⟨"PUBLISHED", some "APPROVAL", none, none, none, none,
            some ts, some (ts + 48 * 3600)⟩)
  | cleaned (j : JobRow) (h : Reach maxR maxU backoff j) (ts : Int)
      (hd : cleanupDue ts j = true) :
      Reach maxR maxU backoff
        (update_job_state j ts
          ⟨"CLEANED", some "CLEANUP", none, none, some "mp4 deleted",
            none, none, none⟩)

end FactoryVM

namespace ReachLemmas

theorem update_job_state_attempt (j : JobRow) (ts : Int) (a : UpdateArgs) :
    (update_job_state j ts a).attempt = j.attempt := by
  rw [update_job_state]
  split <;> rfl

theorem update_job_state_state_cases (j : JobRow) (ts : Int) (a : UpdateArgs) :
    (update_job_state j ts a).state = a.state ∨
      (update_job_state j ts a).state = j.state := by
  rw [update_job_state]
  split
  · exact Or.inr rfl
  · exact Or.inl rfl

theorem schedule_retry_attempt (j : JobRow) (ts : Int) (ns st e : String) (b : Int) :
    (schedule_retry j ts ns st e b).attempt = j.attempt := by
  rw [schedule_retry]
  split <;> rfl

theorem schedule_retry_state_cases (j : JobRow) (ts : Int) (ns st e : String) (b : Int) :
    (schedule_retry j ts ns st e b).state = ns ∨
      (schedule_retry j ts ns st e b).state = j.state := by
  rw [schedule_retry]
  split
  · exact Or.inr rfl
  · exact Or.inl rfl

theorem release_lock_attempt (j : JobRow) (w : String) (ts : Int) :
    (release_lock j w ts).attempt = j.attempt := by
  rw [release_lock]
  split <;> rfl

theorem release_lock_state (j : JobRow) (w : String) (ts : Int) :
    (release_lock j w ts).state = j.state := by
  rw [release_lock]
  split <;> rfl

theorem clear_retry_attempt (j : JobRow) (ts : Int) :
    (clear_retry j ts).attempt = j.attempt := rfl

theorem clear_retry_state (j : JobRow) (ts : Int) :
    (clear_retry j ts).state = j.state := rfl

theorem force_unlock_attempt (j : JobRow) (ts : Int) :
    (force_unlock j ts).attempt = j.attempt := rfl

theorem force_unlock_state (j : JobRow) (ts : Int) :
    (force_unlock j ts).state = j.state := rfl

/-- An `update_job_state` whose target state is not RENDER_FAILED preserves
the RENDER_FAILED attempt bound. -/
theorem P_up (maxR : Nat) (j : JobRow) (ts : Int) (a : UpdateArgs)
    (hP : j.state = "RENDER_FAILED" → maxR ≤ j.attempt)
    (ha : a.state ≠ "RENDER_FAILED") :
    (update_job_state j ts a).state = "RENDER_FAILED" →
      maxR ≤ (update_job_state j ts a).attempt := by
  intro hrf
  rw [update_job_state_attempt]
  rcases update_job_state_state_cases j ts a with hc | hc
  · rw [hc] at hrf
    exact absurd hrf ha
  · rw [hc] at hrf
    exact hP hrf

/-- The orchestrator's generic failure handler preserves the bound: a retry
leaves READY_FOR_RENDER (or a CANCELLED row untouched), and the terminal
branch fires only when the incremented attempt reached
`max_render_attempts`. -/
theorem orchestratorFailure_P (maxR : Nat) (backoff ts : Int) (w e : String)
    (j : JobRow) (hP : j.state = "RENDER_FAILED" → maxR ≤ j.attempt) :
    (orchestratorFailure maxR backoff ts w e j).state = "RENDER_FAILED" →
      maxR ≤ (orchestratorFailure maxR backoff ts w e j).attempt := by
  rw [orchestratorFailure]
  by_cases hlt : (increment_attempt j ts).attempt < maxR
  · rw [if_pos hlt]
    intro hrf
    rw [schedule_retry_attempt]
    rcases schedule_retry_state_cases (increment_attempt j ts) ts
        "READY_FOR_RENDER" "FETCH" _ backoff with hc | hc
    · rw [hc] at hrf
      exact absurd hrf (by decide)
    · rw [hc] at hrf
      exact Nat.le_succ_of_le (hP hrf)
  · rw [if_neg hlt]
    intro _
    rw [release_lock_attempt, clear_retry_attempt, update_job_state_attempt]
    exact Nat.le_of_not_lt hlt

/-- The reclaimer's per-row body preserves the bound (same shape as the
orchestrator's handler, with a force-unlock at the end). -/
theorem reclaimOne_P (maxR : Nat) (backoff ts : Int) (j : JobRow)
    (hP : j.state = "RENDER_FAILED" → maxR ≤ j.attempt) :
    (reclaimOne backoff maxR ts j).state = "RENDER_FAILED" →
      maxR ≤ (reclaimOne backoff maxR ts j).attempt := by
  rw [reclaimOne]
  by_cases hlt : (increment_attempt j ts).attempt < maxR
  · rw [if_pos hlt]
    intro hrf
    rw [schedule_retry_attempt]
    rcases schedule_retry_state_cases (increment_attempt j ts) ts
        "READY_FOR_RENDER" "FETCH" _ backoff with hc | hc
    · rw [hc] at hrf
      exact absurd hrf (by decide)
    · rw [hc] at hrf
      exact Nat.le_succ_of_le (hP hrf)
  · rw [if_neg hlt]
    intro _
    rw [force_unlock_attempt, clear_retry_attempt, update_job_state_attempt]
    exact Nat.le_of_not_lt hlt

/-- The uploader's retry-or-terminal handler never writes RENDER_FAILED, so
it preserves the bound through the attempt increment. -/
theorem uploadFailurePolicy_P (maxR maxU : Nat) (backoff ts : Int)
    (w r t : String) (j : JobRow)
    (hP : j.state = "RENDER_FAILED" → maxR ≤ j.attempt) :
    (uploadFailurePolicy maxU backoff ts w r t j).state = "RENDER_FAILED" →
      maxR ≤ (uploadFailurePolicy maxU backoff ts w r t j).attempt := by
  rw [uploadFailurePolicy]
  by_cases hlt : (increment_attempt j ts).attempt < maxU
  · rw [if_pos hlt]
    intro hrf
    rw [schedule_retry_attempt]
    rcases schedule_retry_state_cases (increment_attempt j ts) ts
        "UPLOADING" "UPLOAD" r backoff with hc | hc
    · rw [hc] at hrf
      exact absurd hrf (by decide)
    · rw [hc] at hrf
      exact Nat.le_succ_of_le (hP hrf)
  · rw [if_neg hlt]
    intro hrf
    rw [release_lock_attempt, clear_retry_attempt, update_job_state_attempt]
    rw [release_lock_state, clear_retry_state] at hrf
    rcases update_job_state_state_cases (increment_attempt j ts) ts
        ⟨"UPLOAD_FAILED", some "UPLOAD", some t, none, none, none, none, none⟩
      with hc | hc
    · rw [hc] at hrf
      have h9 : ("UPLOAD_FAILED" : String) = "RENDER_FAILED" := hrf
      exact absurd h9 (by decide)
    · rw [hc] at hrf
      exact Nat.le_succ_of_le (hP hrf)

/-- The uploader's immediately-terminal credential failure also never
writes RENDER_FAILED. -/
theorem uploadCredentialFailure_P (maxR : Nat) (ts : Int) (w e : String)
    (j : JobRow) (hP : j.state = "RENDER_FAILED" → maxR ≤ j.attempt) :
    (uploadCredentialFailure ts w e j).state = "RENDER_FAILED" →
      maxR ≤ (uploadCredentialFailure ts w e j).attempt := by
  rw [uploadCredentialFailure]
  intro hrf
  rw [release_lock_attempt, clear_retry_attempt, update_job_state_attempt]
  rw [release_lock_state, clear_retry_state] at hrf
  rcases update_job_state_state_cases (increment_attempt j ts) ts
      ⟨"UPLOAD_FAILED", some "UPLOAD", some e, none, none, none, none, none⟩
    with hc | hc
  · rw [hc] at hrf
    have h9 : ("UPLOAD_FAILED" : String) = "RENDER_FAILED" := hrf
    exact absurd h9 (by decide)
  · rw [hc] at hrf
    exact Nat.le_succ_of_le (hP hrf)

end ReachLemmas

/-- C4 counterexample: a job can reach QA_FAILED with attempt = 0 while the
configured maxima are 3 — the QA worker writes QA_FAILED (here: reason
"missing mp4") without touching or checking the attempt counter, so the
claimed invariant "attempt ≥ configured max for its stage" fails for the
failed state QA_FAILED. -/
theorem qa_failed_below_max_reachable :
    ∃ j : JobRow, Reach 3 3 300 j ∧ j.state = "QA_FAILED" ∧ j.attempt = 0 ∧
      j.attempt < 3 := by
  refine ⟨update_job_state (update_job_state (update_job_state (update_job_state
    { newJob 1 "READY_FOR_RENDER" "FETCH" 0 0 with
        locked_by := some "w1", locked_at := some 1, updated_at := 1 } 2
    ⟨"FETCHING_INPUTS", some "FETCH", none, some 0, some "fetching inputs",
      none, none, none⟩) 3
    ⟨"RENDERING", some "RENDER", none, some 0, some "rendering",
      none, none, none⟩) 4
    ⟨"QA_RUNNING", some "QA", none, some 100, some "render done",
      none, none, none⟩) 5
    ⟨"QA_FAILED", some "QA", some "missing mp4", none, none, none, none, none⟩,
    ?_, ?_, ?_, ?_⟩
  · exact Reach.qa_fail _
      (Reach.render_success _
        (Reach.to_rendering _
          (Reach.to_fetching _
            (Reach.claim_lock _ (Reach.created_ready 1 0 0) (by decide) "w1" 1)
            (by decide) 2)
          (by decide) 3)
        (by decide) 4)
      (by decide) "missing mp4" 5
  · decide
  · decide
  · decide

/-- C4 (amended): in every reachable job-row state, a job in RENDER_FAILED
has attempt ≥ max_render_attempts.  (The claim's other failed states do not
satisfy the bound: QA_FAILED is written with no attempt check at all, and
UPLOAD_FAILED is also written below the maximum by the terminal
credential-resolution branch.) -/
theorem render_failed_attempt_invariant (maxR maxU : Nat) (backoff : Int)
    (j : JobRow) (h : Reach maxR maxU backoff j) :
    j.state = "RENDER_FAILED" → maxR ≤ j.attempt := by
  induction h with
  | created_ready id prio ts =>
    intro hrf
    have h9 : ("READY_FOR_RENDER" : String) = "RENDER_FAILED" := hrf
    exact absurd h9 (by decide)
  | created_waiting id prio ts =>
    intro hrf
    have h9 : ("WAITING_INPUTS" : String) = "RENDER_FAILED" := hrf
    exact absurd h9 (by decide)
  | created_draft id prio ts =>
    intro hrf
    have h9 : ("DRAFT" : String) = "RENDER_FAILED" := hrf
    exact absurd h9 (by decide)
  | promote j h hs ts ih =>
    intro hrf
    have h9 : ("READY_FOR_RENDER" : String) = "RENDER_FAILED" := hrf
    exact absurd h9 (by decide)
  | draft_enqueue j h hs ts ih =>
    exact ReachLemmas.P_up maxR j ts _ ih
      (show ("READY_FOR_RENDER" : String) ≠ "RENDER_FAILED" by decide)
  | draft_error j h hs e ts ih =>
    exact ReachLemmas.P_up maxR j ts _ ih
      (show ("DRAFT" : String) ≠ "RENDER_FAILED" by decide)
  | claim_lock j h hl w ts ih =>
    exact ih
  | lease_release j h ts ih =>
    exact ih
  | release_lock_step j h w ts ih =>
    intro hrf
    rw [ReachLemmas.release_lock_state] at hrf
    rw [ReachLemmas.release_lock_attempt]
    exact ih hrf
  | clear_retry_step j h ts ih =>
    exact ih
  | cancel j h reason ts ih =>
    intro hrf
    have h9 : ("CANCELLED" : String) = "RENDER_FAILED" := hrf
    exact absurd h9 (by decide)
  | to_fetching j h hs ts ih =>
    exact ReachLemmas.P_up maxR j ts _ ih
      (show ("FETCHING_INPUTS" : String) ≠ "RENDER_FAILED" by decide)
  | to_rendering j h hs ts ih =>
    exact ReachLemmas.P_up maxR j ts _ ih
      (show ("RENDERING" : String) ≠ "RENDER_FAILED" by decide)
  | render_progress j h hs pct ts ih =>
    exact ReachLemmas.P_up maxR j ts _ ih
      (show ("RENDERING" : String) ≠ "RENDER_FAILED" by decide)
  | render_failure j h hs w e ts ih =>
    exact ReachLemmas.orchestratorFailure_P maxR backoff ts w e j ih
  | reclaim_step j h hs ts ih =>
    exact ReachLemmas.reclaimOne_P maxR backoff ts j ih
  | render_success j h hs ts ih =>
    exact ReachLemmas.P_up maxR j ts _ ih
      (show ("QA_RUNNING" : String) ≠ "RENDER_FAILED" by decide)
  | qa_fail j h hs e ts ih =>
    exact ReachLemmas.P_up maxR j ts _ ih
      (show ("QA_FAILED" : String) ≠ "RENDER_FAILED" by decide)
  | qa_pass j h hs ts ih =>
    exact ReachLemmas.P_up maxR j ts _ ih
      (show ("UPLOADING" : String) ≠ "RENDER_FAILED" by decide)
  | upload_already j h hs ts ih =>
    exact ReachLemmas.P_up maxR j ts _ ih
      (show ("WAIT_APPROVAL" : String) ≠ "RENDER_FAILED" by decide)
  | upload_failure j h hs w eRetry eTerm ts ih =>
    exact ReachLemmas.uploadFailurePolicy_P maxR maxU backoff ts w eRetry eTerm j ih
  | upload_cred_terminal j h hs w e ts ih =>
    exact ReachLemmas.uploadCredentialFailure_P maxR ts w e j ih
  | upload_success j h hs txt ts ih =>
    exact ReachLemmas.P_up maxR j ts _ ih
      (show ("WAIT_APPROVAL" : String) ≠ "RENDER_FAILED" by decide)
  | approve j h hs ts ih =>
    exact ReachLemmas.P_up maxR j ts _ ih
      (show ("APPROVED" : String) ≠ "RENDER_FAILED" by decide)
  | reject j h hs ts ih =>
    exact ReachLemmas.P_up maxR j ts _ ih
      (show ("REJECTED" : String) ≠ "RENDER_FAILED" by decide)
  | publish j h hs ts ih =>
    exact ReachLemmas.P_up maxR j ts _ ih
      (show ("PUBLISHED" : String) ≠ "RENDER_FAILED" by decide)
  | cleaned j h ts hd ih =>
    exact ReachLemmas.P_up maxR j ts _ ih
      (show ("CLEANED" : String) ≠ "RENDER_FAILED" by decide)

/-- The FETCHING_INPUTS row the C4 witness drives into RENDER_FAILED. -/
def traceFetching : JobRow :=
  update_job_state
    { newJob 2 "READY_FOR_RENDER" "FETCH" 0 0 with
        locked_by := some "w1", locked_at := some 1, updated_at := 1 } 2
    ⟨"FETCHING_INPUTS", some "FETCH", none, some 0, some "fetching inputs",
      none, none, none⟩

/-- Witness for C4's amended invariant: with `max_render_attempts = 1`, the
orchestrator failure handler drives `traceFetching` into RENDER_FAILED,
and the invariant yields attempt ≥ 1 there. -/
theorem render_failed_attempt_invariant_witness :
    1 ≤ (orchestratorFailure 1 300 3 "w1" "boom" traceFetching).attempt :=
  render_failed_attempt_invariant 1 3 300 _
    (Reach.render_failure _
      (Reach.to_fetching _
        (Reach.claim_lock _ (Reach.created_ready 2 0 0) (by decide) "w1" 1)
        (by decide) 2)
      (Or.inl (by decide)) "w1" "boom" 3)
    (by decide)

namespace FactoryVM

/-- A code point in `[a-z0-9]` (the character class of `utils.safe_slug`
after lowercasing). -/
def isLowerAlnum (c : Nat) : Bool :=
  (97 ≤ c && c ≤ 122) || (48 ≤ c && c ≤ 57)

/-- ASCII lowercasing, as Python `str.lower` acts on the ASCII range. -/
def pyLower (c : Nat) : Nat :=
  if 65 ≤ c && c ≤ 90 then c + 32 else c

/-- The whitespace class of Python `str.strip()` (ASCII range). -/
def isPySpace (c : Nat) : Bool :=
  c == 32 || c == 9 || c == 10 || c == 13 || c == 11 || c == 12

/-- Python `s.strip()`. -/
def stripWs (l : List Nat) : List Nat :=
  ((l.dropWhile isPySpace).reverse.dropWhile isPySpace).reverse

/-- Python `re.sub(r"[^a-z0-9]+", "_", s)`: each maximal run of characters
outside `[a-z0-9]` becomes one underscore (code 95).  The flag records
whether the previous character was part of such a run. -/
def squashNonAlnum : Bool → List Nat → List Nat
  | _, [] => []
  | prevSep, c :: rest =>
    if isLowerAlnum c then c :: squashNonAlnum false rest
    else if prevSep then squashNonAlnum true rest
    else 95 :: squashNonAlnum true rest

/-- Python `re.sub(r"_+", "_", s)`: collapse runs of underscores. -/
def collapseUnderscores : Bool → List Nat → List Nat
  | _, [] => []
  | prevU, c :: rest =>
    if c == 95 then
      (if prevU then collapseUnderscores true rest
        else 95 :: collapseUnderscores true rest)
    else c :: collapseUnderscores false rest

/-- Python `s.strip("_")`. -/
def stripUnderscores (l : List Nat) : List Nat :=
  ((l.dropWhile fun c => c == 95).reverse.dropWhile fun c => c == 95).reverse

/-- The sanitation pipeline of `utils.safe_slug` before the empty-string
default and the truncation. -/
def slugCore (s : List Nat) : List Nat :=
  stripUnderscores (collapseUnderscores false
    (squashNonAlnum false ((stripWs s).map pyLower)))

/-- `utils.safe_slug` over code points (the orchestrator calls it with the
default `max_len = 60` when staging `NNN_<safe-title>.wav` track names):
strip, lower, squash non-alphanumerics, collapse and strip underscores,
default to "item" when empty, then truncate. -/
def safe_slug (max_len : Nat) (s : List Nat) : List Nat :=
  (if slugCore s = [] then [105, 116, 101, 109] else slugCore s).take max_len

/-- Forty letters a separated by spaces: its slug truncates at character 60
right after an underscore. -/
def slugCounterInput : List Nat := (List.replicate 40 [97, 32]).flatten

end FactoryVM

/-- C9 counterexample: `safe_slug` truncates to 60 characters after
stripping underscores, so the slug of forty space-separated letters ends in
an underscore which a second application strips — the normalizer is not
idempotent. -/
theorem safe_slug_not_idempotent :
    safe_slug 60 (safe_slug 60 slugCounterInput) ≠ safe_slug 60 slugCounterInput ∧
    (safe_slug 60 slugCounterInput).getLast? = some 95 ∧
    (safe_slug 60 slugCounterInput).length = 60 ∧
    (safe_slug 60 (safe_slug 60 slugCounterInput)).length = 59 := by
  decide

namespace SlugLemmas

/-- The adjacency invariant of a sanitized slug: no two consecutive
non-alphanumeric characters. -/
def Sep (a b : Nat) : Prop := isLowerAlnum a = true ∨ isLowerAlnum b = true

theorem alnum_ne95 (c : Nat) (h : isLowerAlnum c = true) : (c == 95) = false := by
  rw [isLowerAlnum] at h
  simp only [Bool.or_eq_true, Bool.and_eq_true, decide_eq_true_eq] at h
  simp only [beq_eq_false_iff_ne, ne_eq]
  omega

theorem alnumOrU_not_space (c : Nat) (h : isLowerAlnum c = true ∨ c = 95) :
    isPySpace c = false := by
  rw [isLowerAlnum] at h
  rw [isPySpace]
  simp only [Bool.or_eq_true, Bool.and_eq_true, decide_eq_true_eq] at h
  simp only [Bool.or_eq_false_iff, beq_eq_false_iff_ne, ne_eq]
  omega

theorem pyLower_fix (c : Nat) (h : isLowerAlnum c = true ∨ c = 95) :
    pyLower c = c := by
  rw [pyLower, if_neg ?hc]
  case hc =>
    rw [isLowerAlnum] at h
    simp only [Bool.or_eq_true, Bool.and_eq_true, decide_eq_true_eq] at h
    simp only [Bool.and_eq_true, decide_eq_true_eq, not_and]
    omega

theorem dropWhile_eq_self_of_all (p : Nat → Bool) (l : List Nat)
    (h : ∀ c ∈ l, p c = false) : l.dropWhile p = l := by
  cases l with
  | nil => rfl
  | cons a t =>
    rw [List.dropWhile_cons,
      if_neg (by rw [h a (List.mem_cons_self a t)]; decide)]

theorem dropWhile_eq_self_of_head (p : Nat → Bool) (l : List Nat)
    (h : ∀ c, l.head? = some c → p c = false) : l.dropWhile p = l := by
  cases l with
  | nil => rfl
  | cons a t =>
    rw [List.dropWhile_cons, if_neg (by rw [h a rfl]; decide)]

theorem map_eq_self_of_all (f : Nat → Nat) (l : List Nat)
    (h : ∀ c ∈ l, f c = c) : l.map f = l := by
  induction l with
  | nil => rfl
  | cons a t ih =>
    rw [List.map_cons, h a (List.mem_cons_self a t),
      ih fun c hc => h c (List.mem_cons_of_mem a hc)]

theorem stripWs_eq_self (l : List Nat) (h : ∀ c ∈ l, isPySpace c = false) :
    stripWs l = l := by
  rw [stripWs, dropWhile_eq_self_of_all _ l h,
    dropWhile_eq_self_of_all _ l.reverse
      (fun c hc => h c (List.mem_reverse.mp hc)),
    List.reverse_reverse]

theorem stripUnderscores_eq_self (l : List Nat)
    (h1 : ∀ c, l.head? = some c → (c == 95) = false)
    (h2 : ∀ c, l.getLast? = some c → (c == 95) = false) :
    stripUnderscores l = l := by
  rw [stripUnderscores, dropWhile_eq_self_of_head _ l h1,
    dropWhile_eq_self_of_head _ l.reverse
      (fun c hc => h2 c (by rw [← List.head?_reverse]; exact hc)),
    List.reverse_reverse]

theorem head?_dropWhile_false (p : Nat → Bool) (l : List Nat) (c : Nat)
    (h : (l.dropWhile p).head? = some c) : p c = false := by
  induction l with
  | nil => cases h
  | cons a t ih =>
    rw [List.dropWhile_cons] at h
    by_cases ha : p a = true
    · rw [if_pos ha] at h
      exact ih h
    · rw [if_neg ha] at h
      injection h with h
      subst h
      cases hcp : p a
      · rfl
      · exact absurd hcp ha

theorem getLast?_dropWhile (p : Nat → Bool) (l : List Nat)
    (h : l.dropWhile p ≠ []) : (l.dropWhile p).getLast? = l.getLast? := by
  induction l with
  | nil => rfl
  | cons a t ih =>
    rw [List.dropWhile_cons]
    rw [List.dropWhile_cons] at h
    by_cases ha : p a = true
    · rw [if_pos ha]
      rw [if_pos ha] at h
      rw [ih h]
      cases t with
      | nil =>
        exact absurd rfl h
      | cons b t2 =>
        rw [List.getLast?_cons_cons]
    · rw [if_neg ha]

theorem squash_id (l : List Nat)
    (hall : ∀ c ∈ l, isLowerAlnum c = true ∨ c = 95)
    (hch : List.Chain' Sep l) :
    squashNonAlnum false l = l ∧
      ((∀ c, l.head? = some c → isLowerAlnum c = true) →
        squashNonAlnum true l = l) := by
  induction l with
  | nil => exact ⟨rfl, fun _ => rfl⟩
  | cons a t ih =>
    have hallt : ∀ c ∈ t, isLowerAlnum c = true ∨ c = 95 :=
      fun c hc => hall c (List.mem_cons_of_mem a hc)
    have hcht : List.Chain' Sep t := hch.tail
    obtain ⟨ihf, iht⟩ := ih hallt hcht
    rcases hall a (List.mem_cons_self a t) with ha | ha
    · constructor
      · rw [squashNonAlnum, if_pos ha, ihf]
      · intro _
        rw [squashNonAlnum, if_pos ha, ihf]
    · subst ha
      have htt : squashNonAlnum true t = t := by
        apply iht
        intro c hc
        have hsep := (List.chain'_cons'.mp hch).1 c hc
        rcases hsep with h9 | hy
        · exact absurd h9 (by decide)
        · exact hy
      constructor
      · rw [squashNonAlnum, if_neg (by decide), if_neg (by decide), htt]
      · intro hhead
        exact absurd (hhead 95 rfl) (by decide)

theorem collapse_id (l : List Nat)
    (hall : ∀ c ∈ l, isLowerAlnum c = true ∨ c = 95)
    (hch : List.Chain' Sep l) :
    collapseUnderscores false l = l ∧
      ((∀ c, l.head? = some c → (c == 95) = false) →
        collapseUnderscores true l = l) := by
  induction l with
  | nil => exact ⟨rfl, fun _ => rfl⟩
  | cons a t ih =>
    have hallt : ∀ c ∈ t, isLowerAlnum c = true ∨ c = 95 :=
      fun c hc => hall c (List.mem_cons_of_mem a hc)
    have hcht : List.Chain' Sep t := hch.tail
    obtain ⟨ihf, iht⟩ := ih hallt hcht
    rcases hall a (List.mem_cons_self a t) with ha | ha
    · have hne : (a == 95) = false := alnum_ne95 a ha
      constructor
      · rw [collapseUnderscores, if_neg (by rw [hne]; decide), ihf]
      · intro _
        rw [collapseUnderscores, if_neg (by rw [hne]; decide), ihf]
    · subst ha
      have htt : collapseUnderscores true t = t := by
        apply iht
        intro c hc
        have hsep := (List.chain'_cons'.mp hch).1 c hc
        rcases hsep with h9 | hy
        · exact absurd h9 (by decide)
        · exact alnum_ne95 c hy
      constructor
      · rw [collapseUnderscores, if_pos (by decide), if_neg (by decide), htt]
      · intro hhead
        exact absurd (hhead 95 rfl) (by decide)

theorem squash_all (b : Bool) (l : List Nat) :
    ∀ c ∈ squashNonAlnum b l, isLowerAlnum c = true ∨ c = 95 := by
  induction l generalizing b with
  | nil =>
    intro c hc
    cases hc
  | cons a t ih =>
    intro c hc
    rw [squashNonAlnum] at hc
    by_cases ha : isLowerAlnum a = true
    · rw [if_pos ha] at hc
      rcases List.mem_cons.mp hc with h | h
      · subst h
        exact Or.inl ha
      · exact ih false c h
    · rw [if_neg ha] at hc
      cases b with
      | true =>
        rw [if_pos rfl] at hc
        exact ih true c hc
      | false =>
        rw [if_neg (by decide)] at hc
        rcases List.mem_cons.mp hc with h | h
        · subst h
          exact Or.inr rfl
        · exact ih true c h

theorem squash_true_head (l : List Nat) :
    ∀ c, (squashNonAlnum true l).head? = some c → isLowerAlnum c = true := by
  induction l with
  | nil =>
    intro c hc
    cases hc
  | cons a t ih =>
    intro c hc
    rw [squashNonAlnum] at hc
    by_cases ha : isLowerAlnum a = true
    · rw [if_pos ha] at hc
      injection hc with hc
      subst hc
      exact ha
    · rw [if_neg ha, if_pos rfl] at hc
      exact ih c hc

theorem squash_chain (b : Bool) (l : List Nat) :
    List.Chain' Sep (squashNonAlnum b l) := by
  induction l generalizing b with
  | nil => exact List.chain'_nil
  | cons a t ih =>
    rw [squashNonAlnum]
    by_cases ha : isLowerAlnum a = true
    · rw [if_pos ha]
      exact List.chain'_cons'.mpr ⟨fun y _ => Or.inl ha, ih false⟩
    · rw [if_neg ha]
      cases b with
      | true =>
        rw [if_pos rfl]
        exact ih true
      | false =>
        rw [if_neg (by decide)]
        exact List.chain'_cons'.mpr
          ⟨fun y hy => Or.inr (squash_true_head t y hy), ih true⟩

theorem chain_reverse (l : List Nat) (h : List.Chain' Sep l) :
    List.Chain' Sep l.reverse := by
  rw [List.chain'_reverse]
  exact h.imp fun a b hab => Or.symm hab

theorem stripUnderscores_subset (l : List Nat) :
    ∀ c ∈ stripUnderscores l, c ∈ l := by
  intro c hc
  rw [stripUnderscores, List.mem_reverse] at hc
  have hc2 := (List.dropWhile_sublist _).subset hc
  rw [List.mem_reverse] at hc2
  exact (List.dropWhile_sublist _).subset hc2

theorem stripUnderscores_chain (l : List Nat) (h : List.Chain' Sep l) :
    List.Chain' Sep (stripUnderscores l) := by
  rw [stripUnderscores]
  exact chain_reverse _ ((chain_reverse _ (h.suffix (List.dropWhile_suffix _))).suffix
    (List.dropWhile_suffix _))

theorem stripUnderscores_head (l : List Nat) (c : Nat)
    (h : (stripUnderscores l).head? = some c) : (c == 95) = false := by
  rw [stripUnderscores, List.head?_reverse] at h
  have hne : (l.dropWhile fun c => c == 95).reverse.dropWhile (fun c => c == 95) ≠ [] := by
    intro hcontra
    rw [hcontra] at h
    cases h
  rw [getLast?_dropWhile _ _ hne, List.getLast?_reverse] at h
  exact head?_dropWhile_false _ _ c h

theorem stripUnderscores_last (l : List Nat) (c : Nat)
    (h : (stripUnderscores l).getLast? = some c) : (c == 95) = false := by
  rw [stripUnderscores, List.getLast?_reverse] at h
  exact head?_dropWhile_false _ _ c h

theorem slugCore_eq (s : List Nat) :
    slugCore s =
      stripUnderscores (squashNonAlnum false ((stripWs s).map pyLower)) := by
  rw [slugCore, (collapse_id _ (squash_all false _) (squash_chain false _)).1]

theorem slugCore_all (s : List Nat) :
    ∀ c ∈ slugCore s, isLowerAlnum c = true ∨ c = 95 := by
  rw [slugCore_eq]
  intro c hc
  exact squash_all false _ c (stripUnderscores_subset _ c hc)

theorem slugCore_chain (s : List Nat) : List.Chain' Sep (slugCore s) := by
  rw [slugCore_eq]
  exact stripUnderscores_chain _ (squash_chain false _)

theorem slugCore_head (s : List Nat) (c : Nat)
    (h : (slugCore s).head? = some c) : (c == 95) = false := by
  rw [slugCore_eq] at h
  exact stripUnderscores_head _ c h

theorem head?_take (l : List Nat) (n : Nat) (hn : n ≠ 0) :
    (l.take n).head? = l.head? := by
  cases l with
  | nil => rw [List.take_nil]
  | cons a t =>
    cases n with
    | zero => exact absurd rfl hn
    | succ m => rw [List.take_succ_cons]; rfl

theorem take_ne_nil (l : List Nat) (n : Nat) (hl : l ≠ []) (hn : n ≠ 0) :
    l.take n ≠ [] := by
  cases l with
  | nil => exact absurd rfl hl
  | cons a t =>
    cases n with
    | zero => exact absurd rfl hn
    | succ m =>
      rw [List.take_succ_cons]
      exact List.cons_ne_nil a _

/-- A list satisfying the slug invariants is a fixed point of the
sanitation pipeline. -/
theorem slugCore_fix (y : List Nat)
    (hall : ∀ c ∈ y, isLowerAlnum c = true ∨ c = 95)
    (hch : List.Chain' Sep y)
    (hhead : ∀ c, y.head? = some c → (c == 95) = false)
    (hlast : ∀ c, y.getLast? = some c → (c == 95) = false) :
    slugCore y = y := by
  rw [slugCore,
    stripWs_eq_self y (fun c hc => alnumOrU_not_space c (hall c hc)),
    map_eq_self_of_all _ y (fun c hc => pyLower_fix c (hall c hc)),
    (squash_id y hall hch).1,
    (collapse_id y hall hch).1]
  exact stripUnderscores_eq_self y hhead hlast

end SlugLemmas

/-- C9 (amended): the normalizer is idempotent on every string whose slug
does not end in an underscore — equivalently, whenever the 60-character
truncation does not cut right after a separator.  (The counterexample shows
the unrestricted claim fails because `safe_slug` truncates after stripping
underscores.) -/
theorem safe_slug_idempotent_no_trailing_sep (s : List Nat)
    (h : (safe_slug 60 s).getLast? ≠ some 95) :
    safe_slug 60 (safe_slug 60 s) = safe_slug 60 s := by
  by_cases hc : slugCore s = []
  · have hy : safe_slug 60 s = [105, 116, 101, 109] := by
      rw [safe_slug, if_pos hc]
      decide
    rw [hy]
    decide
  · have hy_def : safe_slug 60 s = (slugCore s).take 60 := by
      rw [safe_slug, if_neg hc]
    rw [hy_def] at h
    have hall : ∀ c ∈ (slugCore s).take 60, isLowerAlnum c = true ∨ c = 95 :=
      fun c hcm => SlugLemmas.slugCore_all s c (List.take_subset _ _ hcm)
    have hch : List.Chain' SlugLemmas.Sep ((slugCore s).take 60) :=
      (SlugLemmas.slugCore_chain s).take 60
    have hhead : ∀ c, ((slugCore s).take 60).head? = some c → (c == 95) = false := by
      intro c hcm
      rw [SlugLemmas.head?_take _ 60 (by decide)] at hcm
      exact SlugLemmas.slugCore_head s c hcm
    have hlast : ∀ c, ((slugCore s).take 60).getLast? = some c →
        (c == 95) = false := by
      intro c hcm
      rcases eq_or_ne c 95 with h95 | h95
      · subst h95
        exact absurd hcm h
      · exact beq_eq_false_iff_ne.mpr h95
    have hfix : slugCore ((slugCore s).take 60) = (slugCore s).take 60 :=
      SlugLemmas.slugCore_fix _ hall hch hhead hlast
    have hne : (slugCore s).take 60 ≠ [] :=
      SlugLemmas.take_ne_nil _ 60 hc (by decide)
    rw [hy_def, safe_slug, hfix, if_neg hne]
    apply List.take_of_length_le
    rw [List.length_take]
    exact Nat.min_le_left _ _

/-- Witness for C9's amended idempotence at the input "Hello World" (as
code points), whose slug hello_world has no trailing underscore. -/
theorem safe_slug_idempotent_no_trailing_sep_witness :
    safe_slug 60 (safe_slug 60 [72, 101, 108, 108, 111, 32, 87, 111, 114, 108, 100]) =
      safe_slug 60 [72, 101, 108, 108, 111, 32, 87, 111, 114, 108, 100] :=
  safe_slug_idempotent_no_trailing_sep _ (by decide)
